import Mathlib

/-!
Verification of the Authentication, Session & Access-Control Engine of the
healthcare interoperability backend.  The definitions below are a shallow
embedding of `src/backend/security.py`, `src/backend/auth.py` and
`src/backend/main_new.py`: timestamps are naturals (seconds), the SQLite
store is an explicit record of lists, bcrypt hashing is abstracted by an
injective tagging function, and JWTs are structured claim records (signed
tokens decode to exactly the claims that were encoded, so token equality is
claim equality).  HTTP failures are `HTTPError` values carrying the exact
status code and detail string raised by the source.
-/

namespace HIS

/-! ### String helpers (kernel-reducible counterparts of the Python string ops) -/

/-- Character count of a string, as Python `len`. -/
def strLen (s : String) : Nat := s.data.length

/-- Python `s[:n]`. -/
def strTake (s : String) (n : Nat) : String := ⟨s.data.take n⟩

/-- Python `s[-n:]` for `n ≤ len(s)`. -/
def strLastN (s : String) (n : Nat) : String := ⟨s.data.drop (s.data.length - n)⟩

/-- Python `c in s` for a single character. -/
def strHasChar (s : String) (c : Char) : Bool := s.data.contains c

/-- Python `str.strip()`: drop leading and trailing whitespace. -/
def strStrip (s : String) : String :=
  ⟨((s.data.dropWhile Char.isWhitespace).reverse.dropWhile Char.isWhitespace).reverse⟩

/-- Python `str.split(sep)` for a one-character separator, on char lists. -/
def splitOnChar (c : Char) : List Char → List (List Char)
  | [] => [[]]
  | x :: xs =>
    let r := splitOnChar c xs
    if x = c then [] :: r else (x :: r.headD []) :: r.tail

/-- Python `s.split(sep)` for a one-character separator. -/
def strSplitOnChar (s : String) (c : Char) : List String :=
  (splitOnChar c s.data).map (fun l => ⟨l⟩)

/-- Python `s.startswith(p)`. -/
def strStarts : List Char → List Char → Bool
  | _, [] => true
  | [], _ :: _ => false
  | c :: cs, p :: ps => c = p && strStarts cs ps

/-- Python `sub in s` (substring containment). -/
def strHasSub : List Char → List Char → Bool
  | s, sub => if strStarts s sub then true else
      match s with
      | [] => false
      | _ :: t => strHasSub t sub

/-! ### Security configuration constants (`security.py` lines 17-21), in seconds -/

def ACCESS_TOKEN_EXPIRE_MINUTES : Nat := 30
def REFRESH_TOKEN_EXPIRE_DAYS : Nat := 7
def SESSION_TIMEOUT_MINUTES : Nat := 30
def MAX_FAILED_ATTEMPTS : Nat := 5
def ACCOUNT_LOCKOUT_MINUTES : Nat := 30

/-! ### Password management (`security.py` `hash_password` / `verify_password`).
bcrypt is abstracted by an injective tag: `verify_password p (hash_password q)`
is true exactly when `p = q`, which is the behavioural contract the engine
relies on. -/

def hash_password (password : String) : String := "$bcrypt$" ++ password

def verify_password (plain hashed : String) : Bool :=
  hash_password plain == hashed

/-! ### JWT tokens (`security.py` `create_access_token` / `create_refresh_token`).
A token is its decoded claim set; `role` is absent (`none`) on refresh tokens,
mirroring the payload dicts built in `main_new.py`. -/

structure Token where
  sub : String
  role : Option String
  ttype : String
  exp : Nat
deriving DecidableEq, Repr

/-- `create_access_token(data={"sub": user_id, "role": role})`. -/
def create_access_token (userId roleStr : String) (now : Nat) : Token :=
  { sub := userId, role := some roleStr, ttype := "access",
    exp := now + ACCESS_TOKEN_EXPIRE_MINUTES * 60 }

/-- `create_refresh_token(data={"sub": user_id})`. -/
def create_refresh_token (userId : String) (now : Nat) : Token :=
  { sub := userId, role := none, ttype := "refresh",
    exp := now + REFRESH_TOKEN_EXPIRE_DAYS * 24 * 3600 }

/-- `verify_token` succeeds on a well-signed token exactly while the `exp`
claim lies in the future; an expired token raises `JWTError` inside
`jwt.decode`. -/
def verify_token_ok (tok : Token) (now : Nat) : Bool := decide (now < tok.exp)

/-! ### Session inactivity (`security.py` `is_session_expired`) -/

/-- `datetime.utcnow() - last_activity > timedelta(minutes=SESSION_TIMEOUT_MINUTES)`.
Natural subtraction truncates at zero, matching a negative Python timedelta
never exceeding the positive timeout. -/
def is_session_expired (last_activity now : Nat) : Bool :=
  decide (SESSION_TIMEOUT_MINUTES * 60 < now - last_activity)

/-! ### RBAC table and `check_permission` (`security.py` lines 150-201) -/

def ROLE_PERMISSIONS : List (String × List (String × Bool)) :=
  [ ("ADMIN",
      [ ("can_view_phi", true), ("can_edit_phi", true), ("can_delete_phi", true),
        ("can_manage_users", true), ("can_view_audit_logs", true),
        ("can_export_data", true), ("can_access_all_patients", true) ]),
    ("DOCTOR",
      [ ("can_view_phi", true), ("can_edit_phi", true), ("can_delete_phi", false),
        ("can_manage_users", false), ("can_view_audit_logs", false),
        ("can_export_data", true), ("can_access_all_patients", false) ]),
    ("NURSE",
      [ ("can_view_phi", true), ("can_edit_phi", true), ("can_delete_phi", false),
        ("can_manage_users", false), ("can_view_audit_logs", false),
        ("can_export_data", false), ("can_access_all_patients", false) ]),
    ("EMERGENCY",
      [ ("can_view_phi", true), ("can_edit_phi", true), ("can_delete_phi", false),
        ("can_manage_users", false), ("can_view_audit_logs", false),
        ("can_export_data", false), ("can_access_all_patients", true),
        ("break_glass_access", true) ]),
    ("PATIENT",
      [ ("can_view_phi", true), ("can_edit_phi", false), ("can_delete_phi", false),
        ("can_manage_users", false), ("can_view_audit_logs", true),
        ("can_export_data", true), ("can_access_all_patients", false) ]) ]

/-- `ROLE_PERMISSIONS.get(role, {}).get(permission, False)`. -/
def check_permission (role permission : String) : Bool :=
  match ROLE_PERMISSIONS.find? (fun e => decide (e.1 = role)) with
  | none => false
  | some e =>
    match e.2.find? (fun q => decide (q.1 = permission)) with
    | none => false
    | some q => q.2

/-! ### Data masking (`security.py` lines 210-256) -/

/-- `mask_ssn`: `"***-**-****"` when falsy or shorter than 4, else last 4. -/
def mask_ssn (ssn : String) : String :=
  if ssn = "" ∨ strLen ssn < 4 then "***-**-****"
  else "***-**-" ++ strLastN ssn 4

/-- `mask_phone`: `"***-***-****"` when falsy or shorter than 4, else last 4. -/
def mask_phone (phone : String) : String :=
  if phone = "" ∨ strLen phone < 4 then "***-***-****"
  else "***-***-" ++ strLastN phone 4

/-- `mask_email`: placeholder when falsy or no `"@"`, else first-2-chars of the
local part (when longer than 2) plus `parts[1]` after splitting on `"@"`. -/
def mask_email (email : String) : String :=
  if email = "" ∨ ¬ strHasChar email '@' then "***@***.***"
  else
    let parts := strSplitOnChar email '@'
    let p0 := parts.headD ""
    let p1 := parts.getD 1 ""
    if strLen p0 > 2 then strTake p0 2 ++ "***@" ++ p1
    else "***@" ++ p1

/-- A response record as handled by `apply_data_masking`: the three sensitive
keys (absent key = `none`) plus the untouched remainder of the dict. -/
structure PRecord where
  ssn : Option String
  phone : Option String
  email : Option String
  rest : List (String × String)
deriving DecidableEq, Repr

/-- `if field in data and data[field]`: present and truthy (non-empty). -/
def maskField (f : String → String) : Option String → Option String
  | none => none
  | some s => if s = "" then some s else some (f s)

/-- `apply_data_masking(data, role)` (`security.py` lines 231-256). -/
def apply_data_masking (data : PRecord) (role : String) : PRecord :=
  if role = "ADMIN" ∨ role = "DOCTOR" ∨ role = "EMERGENCY" then data
  else
    { data with
      ssn := maskField mask_ssn data.ssn,
      phone := maskField mask_phone data.phone,
      email := maskField mask_email data.email }

/-! ### Persistent data model (`database.py`), restricted to the fields the
engine reads or writes.  Department/hospital/MFA columns and the display-only
fields are carried nowhere by the audited claims and are omitted. -/

structure UserR where
  user_id : String
  username : String
  email : String
  hashed_password : String
  full_name : String
  role : String
  is_active : Bool
  failed_login_attempts : Nat
  locked_until : Option Nat
  last_login : Option Nat
  password_changed_date : Option Nat
deriving DecidableEq, Repr

structure SessionR where
  session_id : String
  user_id : String
  token : Token
  refresh_token : Token
  ip_address : Option String
  user_agent : Option String
  expires_at : Nat
  last_activity : Nat
  is_active : Bool
  revoked : Bool
  revoked_at : Option Nat
deriving DecidableEq, Repr

structure AuditLogR where
  user_id : String
  patient_id : Option Nat
  action : String
  resource_type : String
  resource_id : String
  ip_address : Option String
  user_agent : Option String
  status : String
  session_id : Option String
  justification : Option String
deriving DecidableEq, Repr

structure SecurityEventR where
  event_type : String
  severity : String
  user_id : Option String
  ip_address : Option String
  description : String
deriving DecidableEq, Repr

structure BreakGlassR where
  user_id : String
  patient_id : Nat
  justification : String
  emergency_type : String
  ip_address : Option String
deriving DecidableEq, Repr

/-- The authentication/security SQLite store. -/
structure DB where
  users : List UserR
  sessions : List SessionR
  audit_logs : List AuditLogR
  security_events : List SecurityEventR
  break_glass : List BreakGlassR
deriving DecidableEq, Repr

/-- An `HTTPException(status_code, detail)`. -/
structure HTTPError where
  status_code : Nat
  detail : String
deriving DecidableEq, Repr

instance {ε α : Type} [DecidableEq ε] [DecidableEq α] : DecidableEq (Except ε α) := fun a b =>
  match a, b with
  | .ok x, .ok y =>
    if h : x = y then .isTrue (by rw [h]) else .isFalse (fun hc => h (Except.ok.inj hc))
  | .error x, .error y =>
    if h : x = y then .isTrue (by rw [h]) else .isFalse (fun hc => h (Except.error.inj hc))
  | .ok _, .error _ => .isFalse (fun hc => Except.noConfusion hc)
  | .error _, .ok _ => .isFalse (fun hc => Except.noConfusion hc)

/-! ### Row updates (SQLAlchemy mutations, keyed by primary key) -/

/-- Overwrite the user row with primary key `u.user_id`. -/
def updateUserById (l : List UserR) (u : UserR) : List UserR :=
  l.map (fun x => if x.user_id = u.user_id then u else x)

/-- `session.is_active = False` on the row with the given primary key. -/
def setInactiveById (l : List SessionR) (sid : String) : List SessionR :=
  l.map (fun s => if s.session_id = sid then { s with is_active := false } else s)

/-- `session.last_activity = datetime.utcnow()` on the row with the given key. -/
def touchById (l : List SessionR) (sid : String) (now : Nat) : List SessionR :=
  l.map (fun s => if s.session_id = sid then { s with last_activity := now } else s)

/-- Revocation (`is_active=False, revoked=True, revoked_at=now`) of one row. -/
def revokeById (l : List SessionR) (sid : String) (now : Nat) : List SessionR :=
  l.map (fun s =>
    if s.session_id = sid then
      { s with is_active := false, revoked := true, revoked_at := some now }
    else s)

/-- Mass revocation of every session owned by `uid`
(`main_new.py` `change_password`, lines 377-382). -/
def revokeAllOf (l : List SessionR) (uid : String) (now : Nat) : List SessionR :=
  l.map (fun s =>
    if s.user_id = uid then
      { s with is_active := false, revoked := true, revoked_at := some now }
    else s)

/-- `user.locked_until and user.locked_until > datetime.utcnow()`. -/
def lockedNow (u : UserR) (now : Nat) : Bool :=
  match u.locked_until with
  | none => false
  | some t => decide (now < t)

/-! ### `auth.get_current_user` (`auth.py` lines 19-106): the composite
`authenticate` check.  The bearer token is presented as decoded claims (a
token failing signature verification never reaches the engine's state and is
rejected with 401 by `verify_token`).  The function returns the store as
committed when the call finishes, successfully or not. -/

def sessionMatches (tok : Token) (s : SessionR) : Bool :=
  decide (s.token = tok ∧ s.user_id = tok.sub ∧ s.is_active = true ∧ s.revoked = false)

def get_current_user (db : DB) (tok : Token) (now : Nat) :
    DB × Except HTTPError UserR :=
  if ¬ verify_token_ok tok now then
    (db, .error ⟨401, "Could not validate credentials"⟩)
  else
    match db.users.find? (fun u => decide (u.user_id = tok.sub)) with
    | none => (db, .error ⟨401, "User not found"⟩)
    | some user =>
      if user.is_active = false then
        (db, .error ⟨403, "User account is inactive"⟩)
      else if lockedNow user now then
        (db, .error ⟨403, "Account is temporarily locked due to failed login attempts"⟩)
      else
        match db.sessions.find? (sessionMatches tok) with
        | none => (db, .error ⟨401, "Session not found or expired"⟩)
        | some s =>
          if s.expires_at < now then
            ({ db with sessions := setInactiveById db.sessions s.session_id },
             .error ⟨401, "Session has expired"⟩)
          else if is_session_expired s.last_activity now then
            ({ db with sessions := setInactiveById db.sessions s.session_id },
             .error ⟨401, "Session timeout due to inactivity"⟩)
          else
            ({ db with sessions := touchById db.sessions s.session_id now },
             .ok user)

/-! ### `login` (`main_new.py` lines 163-283).  The random session id and the
client ip/agent are explicit inputs. -/

structure TokenPair where
  access_token : Token
  refresh_token : Token
  token_type : String
  expires_in : Nat
deriving DecidableEq, Repr

def login (db : DB) (username password ip agent sid : String) (now : Nat) :
    DB × Except HTTPError TokenPair :=
  match db.users.find? (fun u => decide (u.username = username)) with
  | none =>
    ({ db with security_events := db.security_events ++
        [ { event_type := "FAILED_LOGIN", severity := "MEDIUM", user_id := none,
            ip_address := some ip,
            description := "Failed login attempt for non-existent user: " ++ username } ] },
     .error ⟨401, "Incorrect username or password"⟩)
  | some user =>
    if lockedNow user now then
      (db, .error ⟨403, "Account is temporarily locked due to failed login attempts"⟩)
    else if verify_password password user.hashed_password = false then
      let attempts := user.failed_login_attempts + 1
      let user' :=
        if MAX_FAILED_ATTEMPTS ≤ attempts then
          { user with failed_login_attempts := attempts,
                      locked_until := some (now + ACCOUNT_LOCKOUT_MINUTES * 60) }
        else { user with failed_login_attempts := attempts }
      let lockEvents : List SecurityEventR :=
        if MAX_FAILED_ATTEMPTS ≤ attempts then
          [ { event_type := "ACCOUNT_LOCKED", severity := "HIGH",
              user_id := some user.user_id, ip_address := some ip,
              description := "Account locked due to 5 failed login attempts" } ]
        else []
      ({ db with users := updateUserById db.users user',
                 security_events := db.security_events ++ lockEvents ++
          [ { event_type := "FAILED_LOGIN", severity := "MEDIUM",
              user_id := some user.user_id, ip_address := some ip,
              description := "Failed login attempt for user: " ++ username } ] },
       .error ⟨401, "Incorrect username or password"⟩)
    else if user.is_active = false then
      (db, .error ⟨403, "User account is inactive"⟩)
    else
      let user' := { user with failed_login_attempts := 0, locked_until := none,
                               last_login := some now }
      let access := create_access_token user.user_id user.role now
      let refresh := create_refresh_token user.user_id now
      let sess : SessionR :=
        { session_id := sid, user_id := user.user_id, token := access,
          refresh_token := refresh, ip_address := some ip, user_agent := some agent,
          expires_at := now + ACCESS_TOKEN_EXPIRE_MINUTES * 60,
          last_activity := now, is_active := true, revoked := false,
          revoked_at := none }
      ({ db with users := updateUserById db.users user',
                 sessions := db.sessions ++ [sess],
                 audit_logs := db.audit_logs ++
          [ { user_id := user.user_id, patient_id := none, action := "LOGIN",
              resource_type := "AUTH", resource_id := sid,
              ip_address := some ip, user_agent := some agent,
              status := "SUCCESS", session_id := some sid, justification := none } ] },
       .ok { access_token := access, refresh_token := refresh,
             token_type := "bearer",
             expires_in := ACCESS_TOKEN_EXPIRE_MINUTES * 60 })

/-! ### `logout` (`main_new.py` lines 285-322): revoke the first session row
matching the bearer token and the authenticated user. -/

def logout (db : DB) (userId : String) (tok : Token) (ip : String) (now : Nat) : DB :=
  match db.sessions.find? (fun s => decide (s.token = tok ∧ s.user_id = userId)) with
  | none => db
  | some s =>
    { db with sessions := revokeById db.sessions s.session_id now,
              audit_logs := db.audit_logs ++
        [ { user_id := userId, patient_id := none, action := "LOGOUT",
            resource_type := "AUTH", resource_id := s.session_id,
            ip_address := some ip, user_agent := none, status := "SUCCESS",
            session_id := some s.session_id, justification := none } ] }

/-! ### `refresh_token` endpoint (`main_new.py` lines 324-359).  Every failure
inside the `try` block — including the explicit 400/401 raises — is caught by
`except Exception` and re-raised as 401 "Invalid or expired refresh token". -/

def refresh_token (db : DB) (tok : Token) (now : Nat) :
    Except HTTPError TokenPair :=
  if ¬ verify_token_ok tok now then
    .error ⟨401, "Invalid or expired refresh token"⟩
  else if tok.ttype ≠ "refresh" then
    .error ⟨401, "Invalid or expired refresh token"⟩
  else
    match db.users.find? (fun u => decide (u.user_id = tok.sub)) with
    | none => .error ⟨401, "Invalid or expired refresh token"⟩
    | some user =>
      if user.is_active = false then
        .error ⟨401, "Invalid or expired refresh token"⟩
      else
        .ok { access_token := create_access_token user.user_id user.role now,
              refresh_token := create_refresh_token user.user_id now,
              token_type := "bearer",
              expires_in := ACCESS_TOKEN_EXPIRE_MINUTES * 60 }

/-! ### `change_password` (`main_new.py` lines 361-386).  The authenticated
caller is identified by `userId`; an id absent from the store cannot occur
behind `get_current_active_user` and is returned unchanged. -/

def change_password (db : DB) (userId oldPassword newPassword : String) (now : Nat) :
    DB × Except HTTPError String :=
  match db.users.find? (fun u => decide (u.user_id = userId)) with
  | none => (db, .error ⟨401, "User not found"⟩)
  | some user =>
    if verify_password oldPassword user.hashed_password = false then
      (db, .error ⟨400, "Incorrect current password"⟩)
    else
      let user' := { user with hashed_password := hash_password newPassword,
                               password_changed_date := some now }
      ({ db with users := updateUserById db.users user',
                 sessions := revokeAllOf db.sessions userId now },
       .ok "Password changed successfully. Please login again.")

/-! ### `revoke_session` endpoint (`main_new.py` lines 830-852) -/

def revoke_session (db : DB) (sessionId userId : String) (now : Nat) :
    DB × Except HTTPError String :=
  match db.sessions.find?
      (fun s => decide (s.session_id = sessionId ∧ s.user_id = userId)) with
  | none => (db, .error ⟨404, "Session not found"⟩)
  | some s =>
    ({ db with sessions := revokeById db.sessions s.session_id now },
     .ok "Session revoked successfully")

/-! ### Break-glass emergency access (`auth.py` lines 170-190 and
`main_new.py` lines 728-767).

The `verify_emergency_access` dependency declares `justification: str = None`
as its own parameter; FastAPI therefore reads it from an optional **query
parameter**, independent of the request body's `justification` field, which
is validated by pydantic only for a raw length of at least 10
(`BreakGlassRequest.justification: Field(..., min_length=10)`). -/

structure BreakGlassRequest where
  patient_id : Nat
  justification : String
  emergency_type : String
deriving DecidableEq, Repr

/-- Pydantic validation of the request body (`models.py` line 139). -/
def breakGlassBodyValid (req : BreakGlassRequest) : Bool :=
  decide (10 ≤ strLen req.justification)

/-- `auth.verify_emergency_access`: role gate then trimmed-length gate on the
dependency's (query) justification. -/
def verify_emergency_access (u : UserR) (justification : Option String) :
    Except HTTPError UserR :=
  if u.role ≠ "EMERGENCY" then
    .error ⟨403, "Emergency role required for break-glass access"⟩
  else
    match justification with
    | none =>
      .error ⟨400, "Emergency access requires detailed justification (minimum 10 characters)"⟩
    | some j =>
      if strLen (strStrip j) < 10 then
        .error ⟨400, "Emergency access requires detailed justification (minimum 10 characters)"⟩
      else .ok u

/-- Store state after the endpoint's **first** `db.commit()`: the
`BreakGlassAccess` row alone is durable. -/
def break_glass_commit1 (db : DB) (u : UserR) (req : BreakGlassRequest)
    (ip : String) : DB :=
  { db with break_glass := db.break_glass ++
      [ { user_id := u.user_id, patient_id := req.patient_id,
          justification := req.justification,
          emergency_type := req.emergency_type, ip_address := some ip } ] }

/-- Store state after the endpoint's second `db.commit()`: the audit entry of
action `"BREAK_GLASS_ACCESS"` joins the break-glass row. -/
def break_glass_commit2 (db : DB) (u : UserR) (req : BreakGlassRequest)
    (ip : String) : DB :=
  let db1 := break_glass_commit1 db u req ip
  { db1 with audit_logs := db1.audit_logs ++
      [ { user_id := u.user_id, patient_id := some req.patient_id,
          action := "BREAK_GLASS_ACCESS", resource_type := "EMERGENCY_OVERRIDE",
          resource_id := toString req.patient_id, ip_address := some ip,
          user_agent := none, status := "SUCCESS", session_id := none,
          justification := some req.justification } ] }

/-- The sequence of store states committed by a successful run of the
endpoint, in order. -/
def break_glass_commits (db : DB) (u : UserR) (req : BreakGlassRequest)
    (ip : String) : List DB :=
  [break_glass_commit1 db u req ip, break_glass_commit2 db u req ip]

/-- The `/api/emergency-access` endpoint: body validation and the
`verify_emergency_access` dependency run before the handler body; the handler
commits the break-glass row, then the audit entry. -/
def break_glass_access (db : DB) (u : UserR) (queryJustification : Option String)
    (req : BreakGlassRequest) (ip : String) :
    DB × Except HTTPError BreakGlassR :=
  if breakGlassBodyValid req = false then
    (db, .error ⟨422, "Validation error: justification shorter than 10 characters"⟩)
  else
    match verify_emergency_access u queryJustification with
    | .error e => (db, .error e)
    | .ok _ =>
      (break_glass_commit2 db u req ip,
       .ok { user_id := u.user_id, patient_id := req.patient_id,
             justification := req.justification,
             emergency_type := req.emergency_type, ip_address := some ip })

/-! ### `audit_logging_middleware` (`main_new.py` lines 61-95).  The inner
response has already been produced; the middleware only appends an audit row
for PHI paths — and swallows every failure of that write with a bare
`except: pass`. -/

inductive WriteOutcome where
  | ok
  | fail
deriving DecidableEq, Repr

def AUDIT_SKIP_PATHS : List String :=
  ["/docs", "/openapi.json", "/api/health", "/favicon.ico"]

def isPHIPath (path : String) : Bool :=
  strHasSub path.data "/api/patients".data || strHasSub path.data "/api/emergency-search".data

/-- The middleware around an inner response with status `respStatus`.
`tok` is the decoded bearer token when the header carries one that verifies;
`w` is the outcome of the audit `db.add`/`db.commit`.  Returns the committed
store and the status code actually returned to the client. -/
def audit_logging_middleware (db : DB) (path : String) (tok : Option Token)
    (now : Nat) (respStatus : Nat) (w : WriteOutcome) : DB × Nat :=
  if AUDIT_SKIP_PATHS.any (fun p => strStarts path.data p.data) then
    (db, respStatus)
  else if isPHIPath path then
    match tok with
    | none => (db, respStatus)
    | some t =>
      if verify_token_ok t now then
        match w with
        | .ok =>
          ({ db with audit_logs := db.audit_logs ++
              [ { user_id := t.sub, patient_id := none, action := "API_ACCESS",
                  resource_type := "PHI", resource_id := path,
                  ip_address := none, user_agent := none,
                  status := if respStatus < 400 then "SUCCESS" else "FAILED",
                  session_id := none, justification := none } ] },
           respStatus)
        | .fail => (db, respStatus)
      else (db, respStatus)
  else (db, respStatus)

/-! ### Operations of the engine, as a single step type.  `applyOp` is the
store transition of each modelled endpoint (the committed state, whether the
call succeeded or not). -/

inductive Op where
  | opLogin (username password ip agent sid : String) (now : Nat)
  | opLogout (userId : String) (tok : Token) (ip : String) (now : Nat)
  | opRevoke (sessionId userId : String) (now : Nat)
  | opChangePassword (userId oldPassword newPassword : String) (now : Nat)
  | opAuthenticate (tok : Token) (now : Nat)
  | opRefresh (tok : Token) (now : Nat)
  | opBreakGlass (u : UserR) (queryJustification : Option String)
      (req : BreakGlassRequest) (ip : String)
deriving Repr

def applyOp (db : DB) : Op → DB
  | .opLogin username password ip agent sid now =>
      (login db username password ip agent sid now).1
  | .opLogout userId tok ip now => logout db userId tok ip now
  | .opRevoke sessionId userId now => (revoke_session db sessionId userId now).1
  | .opChangePassword userId oldPassword newPassword now =>
      (change_password db userId oldPassword newPassword now).1
  | .opAuthenticate tok now => (get_current_user db tok now).1
  | .opRefresh _ _ => db
  | .opBreakGlass u qj req ip => (break_glass_access db u qj req ip).1

def applyTrace (db : DB) (ops : List Op) : DB := ops.foldl applyOp db

/-- Freshness of a token with respect to an operation: a later `login` mints
the access token `create_access_token` at its own clock, so it can only
collide with `tok` when the expiry claims coincide. -/
def opFreshTok (tok : Token) : Op → Prop
  | .opLogin _ _ _ _ _ now => tok.exp ≠ now + ACCESS_TOKEN_EXPIRE_MINUTES * 60
  | _ => True

/-- Freshness of a session id with respect to an operation: `login` stores a
new row under the randomly generated id `sid`. -/
def opFreshSid (sid : String) : Op → Prop
  | .opLogin _ _ _ _ sid' _ => sid' ≠ sid
  | _ => True

instance (tok : Token) (op : Op) : Decidable (opFreshTok tok op) := by
  cases op <;> simp only [opFreshTok] <;> infer_instance

instance (sid : String) (op : Op) : Decidable (opFreshSid sid op) := by
  cases op <;> simp only [opFreshSid] <;> infer_instance

/-! ## Helper lemmas -/

theorem find_assoc_eq_some {α : Type} {l : List (String × α)} {k : String} {v : α}
    (hd : l.Pairwise (fun a b => a.1 ≠ b.1)) (hm : (k, v) ∈ l) :
    l.find? (fun e => decide (e.1 = k)) = some (k, v) := by
  induction l with
  | nil => cases hm
  | cons h t ih =>
    rcases List.mem_cons.mp hm with rfl | hmt
    · simp [List.find?_cons]
    · have hk : h.1 ≠ k := by
        have := (List.pairwise_cons.mp hd).1 (k, v) hmt
        simpa using this
      rw [List.find?_cons]
      simp only [decide_eq_false hk]
      exact ih (List.pairwise_cons.mp hd).2 hmt

theorem find_assoc_mem {α : Type} {l : List (String × α)} {k : String} {e : String × α}
    (h : l.find? (fun x => decide (x.1 = k)) = some e) : e.1 = k ∧ e ∈ l := by
  have h1 := List.find?_some h
  exact ⟨of_decide_eq_true h1, List.mem_of_find?_eq_some h⟩

theorem splitOnChar_no_sep {c : Char} {l : List Char} (h : c ∉ l) :
    splitOnChar c l = [l] := by
  induction l with
  | nil => rfl
  | cons x xs ih =>
    have hx : ¬ x = c := fun hc => h (hc ▸ List.mem_cons_self x xs)
    have hxs : c ∉ xs := fun hc => h (List.mem_cons_of_mem x hc)
    simp [splitOnChar, hx, ih hxs]

theorem splitOnChar_append {c : Char} {l d : List Char} (h : c ∉ l) :
    splitOnChar c (l ++ c :: d) = l :: splitOnChar c d := by
  induction l with
  | nil => simp [splitOnChar]
  | cons x xs ih =>
    have hx : ¬ x = c := fun hc => h (hc ▸ List.mem_cons_self x xs)
    have hxs : c ∉ xs := fun hc => h (List.mem_cons_of_mem x hc)
    simp [splitOnChar, hx, ih hxs]

theorem mask_email_wf {lchars dchars : List Char}
    (hl : '@' ∉ lchars) (hd : '@' ∉ dchars) :
    mask_email ⟨lchars ++ '@' :: dchars⟩ =
      (if 2 < lchars.length then strTake ⟨lchars⟩ 2 ++ "***@" ++ (⟨dchars⟩ : String)
       else "***@" ++ (⟨dchars⟩ : String)) := by
  have hhas : strHasChar ⟨lchars ++ '@' :: dchars⟩ '@' = true := by
    exact List.elem_eq_true_of_mem (by simp)
  have hne : (⟨lchars ++ '@' :: dchars⟩ : String) ≠ "" := by
    intro hc
    have h2 : lchars ++ '@' :: dchars = [] := congrArg String.data hc
    simp at h2
  have hcond : ¬ ((⟨lchars ++ '@' :: dchars⟩ : String) = "" ∨
      ¬ strHasChar ⟨lchars ++ '@' :: dchars⟩ '@') := by
    simp [hhas, hne]
  rw [mask_email, if_neg hcond]
  simp only [strSplitOnChar, splitOnChar_append hl, splitOnChar_no_sep hd]
  simp [strLen]

/-! ## Claim C5 — audit-write failure on a PHI-bearing request

`main_new.py` lines 61-95: the audit middleware around `/api/patients` and
`/api/emergency-search` wraps its `db.add`/`db.commit` in a bare
`try ... except: pass`, so a failed audit write leaves the store untouched and
the successful response is returned to the client anyway.  The spec flags
precisely this fire-and-forget behaviour as a defect (§4.6, §9), so the claim
states the intent and the code contradicts it. -/

def exampleMwDB : DB :=
  { users := [], sessions := [], audit_logs := [], security_events := [],
    break_glass := [] }

def exampleMwToken : Token :=
  { sub := "u-1", role := some "DOCTOR", ttype := "access", exp := 5000 }

/-- Claim C5 (code_bug exhibit): when the audit write of the PHI middleware
fails, the store is left without the audit entry and the surrounding request
still succeeds — for every request, and in particular for a 200 response to
`/api/patients`.  The claim (and the spec) demand that such a request fail as
a whole. -/
theorem C5_audit_failure_swallowed :
    (∀ (db : DB) (path : String) (tok : Option Token) (now respStatus : Nat),
        audit_logging_middleware db path tok now respStatus .fail = (db, respStatus))
    ∧ audit_logging_middleware exampleMwDB "/api/patients" (some exampleMwToken)
        100 200 .fail = (exampleMwDB, 200) := by
  constructor
  · intro db path tok now respStatus
    unfold audit_logging_middleware
    split
    · rfl
    · split
      · match tok with
        | none => rfl
        | some t =>
          simp only
          split <;> rfl
      · rfl
  · rfl

/-! ## Claim C7 — `check_permission` truth table

The claim says `check_permission` returns true *exactly* for the pairs
explicitly present in `ROLE_PERMISSIONS`.  That fails: the table explicitly
stores `False` entries (e.g. `("DOCTOR", "can_delete_phi")`), for which the
function returns false although the pair is present.  What holds is: true
exactly for the pairs present *with value true*, false for everything else —
in particular for every absent pair, unknown role, and unknown permission. -/

/-- Claim C7 (counterexample): the pair `("DOCTOR", "can_delete_phi")` is
explicitly present in `ROLE_PERMISSIONS`, yet `check_permission` returns
false on it, refuting "returns true exactly for the role/permission pairs
explicitly present in the table". -/
theorem C7_present_pair_returns_false :
    check_permission "DOCTOR" "can_delete_phi" = false ∧
      ∃ e ∈ ROLE_PERMISSIONS, e.1 = "DOCTOR" ∧
        ∃ q ∈ e.2, q.1 = "can_delete_phi" := by
  decide

/-- Claim C7 (amended): `check_permission role permission` is true exactly
when the table explicitly grants the permission (stores the pair with value
`true`); every other pair — explicitly denied, absent permission, or unknown
role — yields false, so the function never defaults to allow. -/
theorem C7_check_permission_true_iff (role permission : String) :
    check_permission role permission = true ↔
      ∃ e ∈ ROLE_PERMISSIONS, e.1 = role ∧
        ∃ q ∈ e.2, q.1 = permission ∧ q.2 = true := by
  constructor
  · intro h
    unfold check_permission at h
    cases hf : ROLE_PERMISSIONS.find? (fun e => decide (e.1 = role)) with
    | none => rw [hf] at h; simp at h
    | some e =>
      rw [hf] at h
      dsimp only at h
      obtain ⟨hk, hmem⟩ := find_assoc_mem hf
      cases hg : e.2.find? (fun q => decide (q.1 = permission)) with
      | none => rw [hg] at h; simp at h
      | some q =>
        rw [hg] at h
        dsimp only at h
        obtain ⟨hk2, hmem2⟩ := find_assoc_mem hg
        exact ⟨e, hmem, hk, q, hmem2, hk2, h⟩
  · rintro ⟨⟨r, perms⟩, hmem, hk, ⟨p, b⟩, hmem2, hk2, hq⟩
    dsimp only at hk hk2 hq
    subst hk
    subst hk2
    subst hq
    have hdist : ROLE_PERMISSIONS.Pairwise (fun a b => a.1 ≠ b.1) := by decide
    have hinner : ∀ x ∈ ROLE_PERMISSIONS, x.2.Pairwise (fun a b => a.1 ≠ b.1) := by
      decide
    unfold check_permission
    rw [find_assoc_eq_some hdist hmem]
    dsimp only
    rw [find_assoc_eq_some (hinner _ hmem) hmem2]

/-! ## Claim C8 — role-conditional masking -/

def exampleNurseInput : PRecord :=
  { ssn := some "123-45-6789", phone := some "555-123-4567",
    email := some "john.doe@x.com", rest := [("first_name", "John")] }

def exampleNurseMasked : PRecord :=
  { ssn := some "***-**-6789", phone := some "***-***-4567",
    email := some "jo***@x.com", rest := [("first_name", "John")] }

/-- Claim C8: `apply_data_masking` is the identity for ADMIN, DOCTOR and
EMERGENCY; for every other role it masks a present non-empty SSN and phone to
their last four characters and an email to its first two local characters
plus the domain; on the spec's concrete record, role NURSE yields the masked
record and role DOCTOR yields the input unchanged. -/
theorem C8_apply_data_masking :
    (∀ data : PRecord, apply_data_masking data "ADMIN" = data ∧
        apply_data_masking data "DOCTOR" = data ∧
        apply_data_masking data "EMERGENCY" = data)
    ∧ (∀ (data : PRecord) (role : String),
        role ≠ "ADMIN" → role ≠ "DOCTOR" → role ≠ "EMERGENCY" →
        ∀ s, data.ssn = some s → s ≠ "" → 4 ≤ strLen s →
          (apply_data_masking data role).ssn = some ("***-**-" ++ strLastN s 4))
    ∧ (∀ (data : PRecord) (role : String),
        role ≠ "ADMIN" → role ≠ "DOCTOR" → role ≠ "EMERGENCY" →
        ∀ s, data.phone = some s → s ≠ "" → 4 ≤ strLen s →
          (apply_data_masking data role).phone = some ("***-***-" ++ strLastN s 4))
    ∧ (∀ (data : PRecord) (role : String),
        role ≠ "ADMIN" → role ≠ "DOCTOR" → role ≠ "EMERGENCY" →
        ∀ (lchars dchars : List Char),
          data.email = some ⟨lchars ++ '@' :: dchars⟩ →
          '@' ∉ lchars → '@' ∉ dchars → 2 < lchars.length →
          (apply_data_masking data role).email =
            some (strTake ⟨lchars⟩ 2 ++ "***@" ++ (⟨dchars⟩ : String)))
    ∧ apply_data_masking exampleNurseInput "NURSE" = exampleNurseMasked
    ∧ apply_data_masking exampleNurseInput "DOCTOR" = exampleNurseInput := by
  refine ⟨?_, ?_, ?_, ?_, by decide, by decide⟩
  · intro data
    refine ⟨?_, ?_, ?_⟩ <;> simp [apply_data_masking]
  · intro data role h1 h2 h3 s hs hne hlen
    have hrole : ¬ (role = "ADMIN" ∨ role = "DOCTOR" ∨ role = "EMERGENCY") := by
      simp [h1, h2, h3]
    have h4 : ¬ strLen s < 4 := Nat.not_lt.mpr hlen
    simp [apply_data_masking, hrole, maskField, hs, hne, mask_ssn, h4]
  · intro data role h1 h2 h3 s hs hne hlen
    have hrole : ¬ (role = "ADMIN" ∨ role = "DOCTOR" ∨ role = "EMERGENCY") := by
      simp [h1, h2, h3]
    have h4 : ¬ strLen s < 4 := Nat.not_lt.mpr hlen
    simp [apply_data_masking, hrole, maskField, hs, hne, mask_phone, h4]
  · intro data role h1 h2 h3 lchars dchars hs hl hd hlen
    have hrole : ¬ (role = "ADMIN" ∨ role = "DOCTOR" ∨ role = "EMERGENCY") := by
      simp [h1, h2, h3]
    have hne : (⟨lchars ++ '@' :: dchars⟩ : String) ≠ "" := by
      intro hc
      have : lchars ++ '@' :: dchars = [] := congrArg String.data hc
      simp at this
    simp only [apply_data_masking, if_neg hrole, maskField, hs, if_neg hne]
    rw [mask_email_wf hl hd, if_pos hlen]

/-- Witness for C8: the theorem applied to the spec's concrete record and role
NURSE, with every hypothesis discharged by evaluation. -/
theorem C8_apply_data_masking_witness :
    exampleNurseInput.ssn = some "123-45-6789" ∧
      (apply_data_masking exampleNurseInput "NURSE").ssn = some ("***-**-" ++ strLastN "123-45-6789" 4) := by
  exact ⟨by decide, C8_apply_data_masking.2.1 exampleNurseInput "NURSE"
    (by decide) (by decide) (by decide) "123-45-6789" (by decide) (by decide) (by decide)⟩

/-! ## Claim C10 — masking helpers on degenerate inputs -/

/-- Claim C10: the masking helpers are total on degenerate inputs: an SSN or
phone that is empty or shorter than four characters becomes the fully masked
placeholder, an email without `"@"` becomes `"***@***.***"`, and an email
whose local part has at most two characters becomes `"***@"` followed by the
domain, with no first-two-characters prefix. -/
theorem C10_masking_degenerate :
    (∀ s : String, s = "" ∨ strLen s < 4 → mask_ssn s = "***-**-****")
    ∧ (∀ s : String, s = "" ∨ strLen s < 4 → mask_phone s = "***-***-****")
    ∧ (∀ e : String, strHasChar e '@' = false → mask_email e = "***@***.***")
    ∧ (∀ lchars dchars : List Char,
        '@' ∉ lchars → '@' ∉ dchars → lchars.length ≤ 2 →
        mask_email ⟨lchars ++ '@' :: dchars⟩ = "***@" ++ (⟨dchars⟩ : String)) := by
  refine ⟨?_, ?_, ?_, ?_⟩
  · intro s h; rw [mask_ssn, if_pos h]
  · intro s h; rw [mask_phone, if_pos h]
  · intro e h
    rw [mask_email, if_pos]
    right
    simp [h]
  · intro lchars dchars hl hd hlen
    rw [mask_email_wf hl hd, if_neg (Nat.not_lt.mpr hlen)]

/-- Witness for C10: the four clauses evaluated at `""`, `"12"`, `"plain"`
and `"ab@x.com"`. -/
theorem C10_masking_degenerate_witness :
    mask_ssn "" = "***-**-****" ∧ mask_phone "12" = "***-***-****" ∧
      mask_email "plain" = "***@***.***" ∧
      mask_email ⟨['a', 'b'] ++ '@' :: ['x', '.', 'c', 'o', 'm']⟩ =
        "***@" ++ (⟨['x', '.', 'c', 'o', 'm']⟩ : String) := by
  exact ⟨C10_masking_degenerate.1 "" (Or.inl rfl),
    C10_masking_degenerate.2.1 "12" (Or.inr (by decide)),
    C10_masking_degenerate.2.2.1 "plain" (by decide),
    C10_masking_degenerate.2.2.2 ['a', 'b'] ['x', '.', 'c', 'o', 'm']
      (by decide) (by decide) (by decide)⟩

/-! ## Claims C2 and C9 — the login / lockout state machine -/

theorem find_updateUserById {l : List UserR} {u' : UserR} {k : String}
    (hk : u'.user_id = k) (hmem : ∃ x ∈ l, x.user_id = k) :
    (updateUserById l u').find? (fun x => decide (x.user_id = k)) = some u' := by
  subst hk
  induction l with
  | nil => obtain ⟨x, hx, _⟩ := hmem; cases hx
  | cons h t ih =>
    simp only [updateUserById, List.map_cons, List.find?_cons]
    by_cases hh : h.user_id = u'.user_id
    · simp [hh]
    · rw [if_neg hh]
      simp only [decide_eq_false hh]
      apply ih
      obtain ⟨x, hx, hxid⟩ := hmem
      rcases List.mem_cons.mp hx with rfl | hxt
      · exact absurd hxid hh
      · exact ⟨x, hxt, hxid⟩

theorem failed_login_descriptions_differ (a b : String) :
    "Failed login attempt for user: " ++ a ≠
      "Failed login attempt for non-existent user: " ++ b := by
  intro h
  have h1 : (("Failed login attempt for user: " ++ a).data)[25]? =
      (("Failed login attempt for non-existent user: " ++ b).data)[25]? := by rw [h]
  rw [String.data_append, String.data_append, List.getElem?_append,
    List.getElem?_append, if_pos (by decide), if_pos (by decide)] at h1
  have h2 : ("Failed login attempt for user: ".data)[25]? = some 'u' := by decide
  have h3 : ("Failed login attempt for non-existent user: ".data)[25]? = some 'n' := by decide
  rw [h2, h3] at h1
  cases h1

/-- Claim C2 (amended): a wrong-password attempt against an unlocked account
increments the failed-login counter by one and, as soon as the counter
reaches the threshold `MAX_FAILED_ATTEMPTS = 5`, locks the account with
`locked_until = now + 30` minutes; while `locked_until` lies in the future
every login attempt is refused with the account-locked error regardless of
the supplied password; once `locked_until` has elapsed, a correct-password
login for an *active* account succeeds, resets the counter to 0 and clears
`locked_until` (an inactive account is instead refused with the
account-inactive error, see the counterexample). -/
theorem C2_lockout_state_machine :
    (∀ (db : DB) (username password ip agent sid : String) (now : Nat) (user : UserR),
      db.users.find? (fun u => decide (u.username = username)) = some user →
      lockedNow user now = false →
      verify_password password user.hashed_password = false →
      (login db username password ip agent sid now).2 =
          .error ⟨401, "Incorrect username or password"⟩ ∧
        ∃ user', ((login db username password ip agent sid now).1).users.find?
              (fun x => decide (x.user_id = user.user_id)) = some user' ∧
          user'.failed_login_attempts = user.failed_login_attempts + 1 ∧
          (MAX_FAILED_ATTEMPTS ≤ user.failed_login_attempts + 1 →
            user'.locked_until = some (now + ACCOUNT_LOCKOUT_MINUTES * 60)) ∧
          (user.failed_login_attempts + 1 < MAX_FAILED_ATTEMPTS →
            user'.locked_until = user.locked_until))
    ∧ (∀ (db : DB) (username password ip agent sid : String) (now : Nat) (user : UserR),
      db.users.find? (fun u => decide (u.username = username)) = some user →
      lockedNow user now = true →
      login db username password ip agent sid now =
        (db, .error ⟨403, "Account is temporarily locked due to failed login attempts"⟩))
    ∧ (∀ (db : DB) (username password ip agent sid : String) (now t : Nat) (user : UserR),
      db.users.find? (fun u => decide (u.username = username)) = some user →
      user.locked_until = some t → t ≤ now →
      verify_password password user.hashed_password = true →
      user.is_active = true →
      (∃ pair, (login db username password ip agent sid now).2 = .ok pair) ∧
        ∃ user', ((login db username password ip agent sid now).1).users.find?
              (fun x => decide (x.user_id = user.user_id)) = some user' ∧
          user'.failed_login_attempts = 0 ∧ user'.locked_until = none) := by
  refine ⟨?_, ?_, ?_⟩
  · intro db username password ip agent sid now user hfind hlock hpw
    have hmem : user ∈ db.users := List.mem_of_find?_eq_some hfind
    constructor
    · simp [login, hfind, hlock, hpw]
    · by_cases hth : MAX_FAILED_ATTEMPTS ≤ user.failed_login_attempts + 1
      · refine ⟨{ user with
            failed_login_attempts := user.failed_login_attempts + 1,
            locked_until := some (now + ACCOUNT_LOCKOUT_MINUTES * 60) },
            ?_, rfl, fun _ => rfl, fun hc => absurd hth (Nat.not_le.mpr hc)⟩
        have hgoal : ((login db username password ip agent sid now).1).users =
            updateUserById db.users { user with
              failed_login_attempts := user.failed_login_attempts + 1,
              locked_until := some (now + ACCOUNT_LOCKOUT_MINUTES * 60) } := by
          simp [login, hfind, hlock, hpw, hth]
        rw [hgoal]
        exact find_updateUserById rfl ⟨user, hmem, rfl⟩
      · refine ⟨{ user with
            failed_login_attempts := user.failed_login_attempts + 1 },
            ?_, rfl, fun hc => absurd hc hth, fun _ => rfl⟩
        have hgoal : ((login db username password ip agent sid now).1).users =
            updateUserById db.users
              { user with failed_login_attempts := user.failed_login_attempts + 1 } := by
          simp [login, hfind, hlock, hpw, hth]
        rw [hgoal]
        exact find_updateUserById rfl ⟨user, hmem, rfl⟩
  · intro db username password ip agent sid now user hfind hlock
    simp [login, hfind, hlock]
  · intro db username password ip agent sid now t user hfind hlu ht hpw hact
    have hmem : user ∈ db.users := List.mem_of_find?_eq_some hfind
    have hlock : lockedNow user now = false := by
      simp [lockedNow, hlu, Nat.not_lt.mpr ht]
    have hpw' : ¬ verify_password password user.hashed_password = false := by
      simp [hpw]
    constructor
    · exact ⟨⟨create_access_token user.user_id user.role now,
        create_refresh_token user.user_id now, "bearer",
        ACCESS_TOKEN_EXPIRE_MINUTES * 60⟩, by simp [login, hfind, hlock, hpw', hact]⟩
    · refine ⟨{ user with
          failed_login_attempts := 0, locked_until := none,
          last_login := some now },
          ?_, rfl, rfl⟩
      have hgoal : ((login db username password ip agent sid now).1).users =
          updateUserById db.users { user with
            failed_login_attempts := 0,
            locked_until := none, last_login := some now } := by
        simp [login, hfind, hlock, hpw', hact]
      rw [hgoal]
      exact find_updateUserById rfl ⟨user, hmem, rfl⟩

def exampleInactiveLockedUser : UserR :=
  { user_id := "u-locked", username := "carol", email := "carol@x.com",
    hashed_password := hash_password "Secret1!", full_name := "Carol",
    role := "NURSE", is_active := false, failed_login_attempts := 5,
    locked_until := some 100, last_login := none, password_changed_date := none }

def exampleInactiveLockedDB : DB :=
  { users := [exampleInactiveLockedUser], sessions := [], audit_logs := [],
    security_events := [], break_glass := [] }

/-- Claim C2 (counterexample): an inactive account whose `locked_until` has
elapsed is refused with the account-inactive error on a correct-password
login, and its counter and `locked_until` are left untouched — refuting the
claim's unconditional "after locked_until has elapsed a correct-password
login succeeds, resets the counter to 0, and clears locked_until". -/
theorem C2_inactive_user_never_unlocks :
    verify_password "Secret1!" exampleInactiveLockedUser.hashed_password = true ∧
      exampleInactiveLockedUser.locked_until = some 100 ∧ 100 ≤ 200 ∧
      login exampleInactiveLockedDB "carol" "Secret1!" "1.2.3.4" "agent" "sid-1" 200 =
        (exampleInactiveLockedDB, .error ⟨403, "User account is inactive"⟩) := by
  decide

def exampleAlmostLockedUser : UserR :=
  { user_id := "u-9", username := "dave", email := "dave@x.com",
    hashed_password := hash_password "Right1!!", full_name := "Dave",
    role := "DOCTOR", is_active := true, failed_login_attempts := 4,
    locked_until := none, last_login := none, password_changed_date := none }

def exampleAlmostLockedDB : DB :=
  { users := [exampleAlmostLockedUser], sessions := [], audit_logs := [],
    security_events := [], break_glass := [] }

def exampleUnlockableUser : UserR :=
  { exampleAlmostLockedUser with
    user_id := "u-10", username := "erin",
    email := "erin@x.com", failed_login_attempts := 5, locked_until := some 500 }

def exampleUnlockableDB : DB :=
  { users := [exampleUnlockableUser], sessions := [], audit_logs := [],
    security_events := [], break_glass := [] }

/-- Witness for C2: the three clauses of the theorem applied to concrete
stores — a fifth wrong-password attempt locking `dave`, a refused attempt
while `erin` is locked, and `erin` logging in with the right password after
the lock has elapsed. -/
theorem C2_lockout_state_machine_witness :
    (exampleAlmostLockedDB.users.find? (fun u => decide (u.username = "dave")) =
        some exampleAlmostLockedUser ∧
      ((login exampleAlmostLockedDB "dave" "wrong" "ip" "ag" "s1" 1000).2 =
          .error ⟨401, "Incorrect username or password"⟩ ∧
        ∃ user', ((login exampleAlmostLockedDB "dave" "wrong" "ip" "ag" "s1" 1000).1).users.find?
              (fun x => decide (x.user_id = exampleAlmostLockedUser.user_id)) = some user' ∧
          user'.failed_login_attempts = exampleAlmostLockedUser.failed_login_attempts + 1 ∧
          (MAX_FAILED_ATTEMPTS ≤ exampleAlmostLockedUser.failed_login_attempts + 1 →
            user'.locked_until = some (1000 + ACCOUNT_LOCKOUT_MINUTES * 60)) ∧
          (exampleAlmostLockedUser.failed_login_attempts + 1 < MAX_FAILED_ATTEMPTS →
            user'.locked_until = exampleAlmostLockedUser.locked_until)))
    ∧ login exampleUnlockableDB "erin" "Right1!!" "ip" "ag" "s2" 400 =
        (exampleUnlockableDB,
         .error ⟨403, "Account is temporarily locked due to failed login attempts"⟩)
    ∧ ((∃ pair, (login exampleUnlockableDB "erin" "Right1!!" "ip" "ag" "s3" 600).2 = .ok pair) ∧
        ∃ user', ((login exampleUnlockableDB "erin" "Right1!!" "ip" "ag" "s3" 600).1).users.find?
              (fun x => decide (x.user_id = exampleUnlockableUser.user_id)) = some user' ∧
          user'.failed_login_attempts = 0 ∧ user'.locked_until = none) := by
  refine ⟨⟨by decide, ?_⟩, ?_, ?_⟩
  · exact C2_lockout_state_machine.1 exampleAlmostLockedDB "dave" "wrong" "ip" "ag" "s1"
      1000 exampleAlmostLockedUser (by decide) (by decide) (by decide)
  · exact C2_lockout_state_machine.2.1 exampleUnlockableDB "erin" "Right1!!" "ip" "ag" "s2"
      400 exampleUnlockableUser (by decide) (by decide)
  · exact C2_lockout_state_machine.2.2 exampleUnlockableDB "erin" "Right1!!" "ip" "ag" "s3"
      600 500 exampleUnlockableUser (by decide) (by decide) (by decide) (by decide) (by decide)

/-- Claim C9: a wrong-password login for an existing (unlocked) user and a
login for a nonexistent username return the identical error — same status
code 401 and same detail text — while internally emitting distinguishable
`SecurityEvent` rows: both FAILED_LOGIN of severity MEDIUM, but with
different descriptions and different recorded user ids. -/
theorem C9_failed_login_indistinguishable :
    ∀ (db : DB) (u1name pw1 ip1 ag1 sid1 : String) (now1 : Nat)
      (u2name pw2 ip2 ag2 sid2 : String) (now2 : Nat) (user : UserR),
      db.users.find? (fun u => decide (u.username = u1name)) = some user →
      lockedNow user now1 = false →
      verify_password pw1 user.hashed_password = false →
      db.users.find? (fun u => decide (u.username = u2name)) = none →
      (login db u1name pw1 ip1 ag1 sid1 now1).2 =
          (login db u2name pw2 ip2 ag2 sid2 now2).2 ∧
      (login db u1name pw1 ip1 ag1 sid1 now1).2 =
          .error ⟨401, "Incorrect username or password"⟩ ∧
      ((login db u1name pw1 ip1 ag1 sid1 now1).1).security_events.getLast? =
          some { event_type := "FAILED_LOGIN", severity := "MEDIUM",
                 user_id := some user.user_id, ip_address := some ip1,
                 description := "Failed login attempt for user: " ++ u1name } ∧
      ((login db u2name pw2 ip2 ag2 sid2 now2).1).security_events =
          db.security_events ++
            [{ event_type := "FAILED_LOGIN", severity := "MEDIUM",
               user_id := none, ip_address := some ip2,
               description := "Failed login attempt for non-existent user: " ++ u2name }] ∧
      (some user.user_id ≠ (none : Option String)) ∧
      ("Failed login attempt for user: " ++ u1name ≠
        "Failed login attempt for non-existent user: " ++ u2name) := by
  intro db u1name pw1 ip1 ag1 sid1 now1 u2name pw2 ip2 ag2 sid2 now2 user
    hfind1 hlock hpw hfind2
  refine ⟨?_, ?_, ?_, ?_, by simp, failed_login_descriptions_differ u1name u2name⟩
  · simp [login, hfind1, hlock, hpw, hfind2]
  · simp [login, hfind1, hlock, hpw]
  · simp [login, hfind1, hlock, hpw, List.getLast?_concat]
  · simp [login, hfind2]

def exampleC9User : UserR :=
  { user_id := "u-a1", username := "alice", email := "alice@x.com",
    hashed_password := hash_password "Correct1!", full_name := "Alice",
    role := "DOCTOR", is_active := true, failed_login_attempts := 0,
    locked_until := none, last_login := none, password_changed_date := none }

def exampleC9DB : DB :=
  { users := [exampleC9User], sessions := [], audit_logs := [],
    security_events := [], break_glass := [] }

/-- Witness for C9: the theorem applied to `alice` with a wrong password and
to the nonexistent username `bob`. -/
theorem C9_failed_login_indistinguishable_witness :
    exampleC9DB.users.find? (fun u => decide (u.username = "alice")) = some exampleC9User ∧
      (login exampleC9DB "alice" "wrong" "ip1" "ag1" "s1" 50).2 =
        (login exampleC9DB "bob" "whatever" "ip2" "ag2" "s2" 60).2 := by
  refine ⟨by decide, ?_⟩
  exact (C9_failed_login_indistinguishable exampleC9DB "alice" "wrong" "ip1" "ag1" "s1" 50
    "bob" "whatever" "ip2" "ag2" "s2" 60 exampleC9User
    (by decide) (by decide) (by decide) (by decide)).1

/-! ## Inversion of `get_current_user` and claim C6 -/

theorem except_error_of_not_ok {ε α : Type} :
    ∀ (x : Except ε α), (∀ a, x ≠ .ok a) → ∃ e, x = .error e
  | .error e, _ => ⟨e, rfl⟩
  | .ok a, h => (h a rfl).elim

/-- Inversion of a successful `get_current_user` run: acceptance implies the
token verified and a session row matched the filter with the two time guards
holding non-strictly. -/
theorem get_current_user_ok_inv {db : DB} {tok : Token} {now : Nat} {u : UserR}
    (h : (get_current_user db tok now).2 = .ok u) :
    verify_token_ok tok now = true ∧
      ∃ s ∈ db.sessions, s.token = tok ∧ s.user_id = tok.sub ∧
        s.is_active = true ∧ s.revoked = false ∧ now ≤ s.expires_at ∧
        now - s.last_activity ≤ SESSION_TIMEOUT_MINUTES * 60 := by
  unfold get_current_user at h
  split at h
  · simp at h
  · rename_i hv
    have hv' : verify_token_ok tok now = true := of_not_not hv
    refine ⟨hv', ?_⟩
    cases hf : db.users.find? (fun u => decide (u.user_id = tok.sub)) with
    | none => rw [hf] at h; simp at h
    | some user =>
      rw [hf] at h
      dsimp only at h
      split at h
      · simp at h
      · split at h
        · simp at h
        · cases hs : db.sessions.find? (sessionMatches tok) with
          | none => rw [hs] at h; simp at h
          | some s =>
            rw [hs] at h
            dsimp only at h
            have hmem := List.mem_of_find?_eq_some hs
            have hpred : sessionMatches tok s = true := List.find?_some hs
            unfold sessionMatches at hpred
            obtain ⟨h1, h2, h3, h4⟩ := of_decide_eq_true hpred
            split at h
            · simp at h
            · rename_i hex
              split at h
              · simp at h
              · rename_i hidle
                refine ⟨s, hmem, h1, h2, h3, h4, Nat.not_lt.mp hex, ?_⟩
                have : ¬ SESSION_TIMEOUT_MINUTES * 60 < now - s.last_activity := by
                  intro hc
                  exact hidle (by simp [is_session_expired, hc])
                exact Nat.not_lt.mp this

/-- Claim C6: the refresh endpoint fails for every token whose `type` claim
is not `"refresh"` and for every token whose subject user is missing or
inactive; otherwise it returns a brand-new access+refresh pair minted at the
current clock; conversely `get_current_user` never accepts a token of type
`"refresh"` over a store whose session rows (as created by `login`) all hold
access tokens, since the session filter compares the full token. -/
theorem C6_refresh_token_policy :
    (∀ (db : DB) (tok : Token) (now : Nat), tok.ttype ≠ "refresh" →
      refresh_token db tok now = .error ⟨401, "Invalid or expired refresh token"⟩)
    ∧ (∀ (db : DB) (tok : Token) (now : Nat),
      db.users.find? (fun u => decide (u.user_id = tok.sub)) = none →
      refresh_token db tok now = .error ⟨401, "Invalid or expired refresh token"⟩)
    ∧ (∀ (db : DB) (tok : Token) (now : Nat) (user : UserR),
      db.users.find? (fun u => decide (u.user_id = tok.sub)) = some user →
      user.is_active = false →
      refresh_token db tok now = .error ⟨401, "Invalid or expired refresh token"⟩)
    ∧ (∀ (db : DB) (tok : Token) (now : Nat) (user : UserR),
      now < tok.exp → tok.ttype = "refresh" →
      db.users.find? (fun u => decide (u.user_id = tok.sub)) = some user →
      user.is_active = true →
      refresh_token db tok now = .ok
        ⟨create_access_token user.user_id user.role now,
         create_refresh_token user.user_id now, "bearer",
         ACCESS_TOKEN_EXPIRE_MINUTES * 60⟩)
    ∧ (∀ (db : DB) (tok : Token) (now : Nat),
      tok.ttype = "refresh" →
      (∀ s ∈ db.sessions, s.token.ttype = "access") →
      ∃ e, (get_current_user db tok now).2 = .error e) := by
  refine ⟨?_, ?_, ?_, ?_, ?_⟩
  · intro db tok now hty
    by_cases hv : verify_token_ok tok now
    · simp [refresh_token, hv, hty]
    · simp [refresh_token, hv]
  · intro db tok now hf
    by_cases hv : verify_token_ok tok now
    · by_cases hty : tok.ttype = "refresh"
      · simp [refresh_token, hv, hty, hf]
      · simp [refresh_token, hv, hty]
    · simp [refresh_token, hv]
  · intro db tok now user hf hact
    by_cases hv : verify_token_ok tok now
    · by_cases hty : tok.ttype = "refresh"
      · simp [refresh_token, hv, hty, hf, hact]
      · simp [refresh_token, hv, hty]
    · simp [refresh_token, hv]
  · intro db tok now user hexp hty hf hact
    have hv : verify_token_ok tok now = true := by simp [verify_token_ok, hexp]
    simp [refresh_token, hv, hty, hf, hact]
  · intro db tok now hty hacc
    apply except_error_of_not_ok
    intro a hc
    obtain ⟨-, s, hmem, h1, -, -, -, -, -⟩ := get_current_user_ok_inv hc
    have : s.token.ttype = "access" := hacc s hmem
    rw [h1, hty] at this
    exact absurd this (by decide)

def exampleC6User : UserR :=
  { user_id := "u-r1", username := "frank", email := "frank@x.com",
    hashed_password := hash_password "Frank1!!", full_name := "Frank",
    role := "NURSE", is_active := true, failed_login_attempts := 0,
    locked_until := none, last_login := none, password_changed_date := none }

def exampleC6DB : DB :=
  { users := [exampleC6User], sessions := [], audit_logs := [],
    security_events := [], break_glass := [] }

def exampleC6RefreshTok : Token := create_refresh_token "u-r1" 0

def exampleC6AccessTok : Token := create_access_token "u-r1" "NURSE" 0

/-- Witness for C6: over a concrete store, an access token presented to the
refresh endpoint is rejected, a refresh token for the active user `frank`
yields a freshly minted pair, and `get_current_user` fails on that refresh
token. -/
theorem C6_refresh_token_policy_witness :
    refresh_token exampleC6DB exampleC6AccessTok 10 =
        .error ⟨401, "Invalid or expired refresh token"⟩ ∧
      refresh_token exampleC6DB exampleC6RefreshTok 10 =
        .ok ⟨create_access_token "u-r1" "NURSE" 10, create_refresh_token "u-r1" 10,
          "bearer", ACCESS_TOKEN_EXPIRE_MINUTES * 60⟩ ∧
      ∃ e, (get_current_user exampleC6DB exampleC6RefreshTok 10).2 = .error e := by
  refine ⟨?_, ?_, ?_⟩
  · exact C6_refresh_token_policy.1 exampleC6DB exampleC6AccessTok 10 (by decide)
  · exact C6_refresh_token_policy.2.2.2.1 exampleC6DB exampleC6RefreshTok 10 exampleC6User
      (by decide) (by decide) (by decide) (by decide)
  · exact C6_refresh_token_policy.2.2.2.2 exampleC6DB exampleC6RefreshTok 10 (by decide)
      (by intro s hs; cases hs)

/-! ## Claim C4 — break-glass emergency access -/

theorem verify_emergency_access_ok_inv {u : UserR} {qj : Option String} {v : UserR}
    (h : verify_emergency_access u qj = .ok v) :
    u.role = "EMERGENCY" ∧ ∃ j, qj = some j ∧ 10 ≤ strLen (strStrip j) := by
  unfold verify_emergency_access at h
  split at h
  · simp at h
  · rename_i hrole
    refine ⟨of_not_not hrole, ?_⟩
    cases qj with
    | none => simp at h
    | some j =>
      dsimp only at h
      split at h
      · simp at h
      · rename_i hlen
        exact ⟨j, rfl, Nat.not_lt.mp hlen⟩

theorem verify_emergency_access_ok_eq {u : UserR} {j : String}
    (hrole : u.role = "EMERGENCY") (hj : 10 ≤ strLen (strStrip j)) :
    verify_emergency_access u (some j) = .ok u := by
  simp [verify_emergency_access, hrole, Nat.not_lt.mpr hj]

def exampleBGUser : UserR :=
  { user_id := "u-e1", username := "eve", email := "eve@x.com",
    hashed_password := hash_password "Eve1!!!!", full_name := "Eve",
    role := "EMERGENCY", is_active := true, failed_login_attempts := 0,
    locked_until := none, last_login := none, password_changed_date := none }

def exampleBGDB : DB :=
  { users := [exampleBGUser], sessions := [], audit_logs := [],
    security_events := [], break_glass := [] }

/-- A request body whose `justification` has raw length 10 (so it passes the
pydantic `min_length=10` validation) but only 2 characters after trimming. -/
def exampleBGShortReq : BreakGlassRequest :=
  { patient_id := 7, justification := "ab        ", emergency_type := "TRAUMA" }

/-- Claim C4 (counterexample): with the 20-character *query* justification
`"cardiac arrest in ER"` satisfying the gate, a call whose request body
carries the justification `"ab        "` — only 2 characters after trimming —
succeeds and persists that short justification, refuting "succeeds only when
the justification contains at least 10 characters after trimming"; moreover
the first committed store of the successful run already holds the
BreakGlassAccess row while holding no audit entry at all, refuting "one
BreakGlassAccess record and one AuditLog entry in the same logical
transaction — both or neither". -/
theorem C4_short_justification_and_split_commits :
    strLen (strStrip exampleBGShortReq.justification) = 2 ∧
      (break_glass_access exampleBGDB exampleBGUser (some "cardiac arrest in ER")
          exampleBGShortReq "9.9.9.9").2 =
        .ok ⟨"u-e1", 7, "ab        ", "TRAUMA", some "9.9.9.9"⟩ ∧
      break_glass_commits exampleBGDB exampleBGUser exampleBGShortReq "9.9.9.9" =
        [break_glass_commit1 exampleBGDB exampleBGUser exampleBGShortReq "9.9.9.9",
         (break_glass_access exampleBGDB exampleBGUser (some "cardiac arrest in ER")
            exampleBGShortReq "9.9.9.9").1] ∧
      (break_glass_commit1 exampleBGDB exampleBGUser exampleBGShortReq
          "9.9.9.9").break_glass.length = 1 ∧
      (break_glass_commit1 exampleBGDB exampleBGUser exampleBGShortReq
          "9.9.9.9").audit_logs.length = 0 := by
  decide

/-- Claim C4 (amended): the call succeeds exactly when the caller's role is
EMERGENCY, the dependency's (query-parameter) justification has at least 10
characters after trimming, and the body justification has raw length at least
10; any rejection happens before any record is persisted; a successful call
persists exactly one BreakGlassAccess row (carrying the body justification)
and exactly one AuditLog entry of action "BREAK_GLASS_ACCESS" — committed in
two successive transactions, the BreakGlassAccess row first, so an
intermediate committed state holds the row without its audit entry. -/
theorem C4_break_glass_gate_and_records :
    (∀ (db : DB) (u : UserR) (qj : Option String) (req : BreakGlassRequest) (ip : String),
      (∃ r, (break_glass_access db u qj req ip).2 = .ok r) ↔
        (10 ≤ strLen req.justification ∧ u.role = "EMERGENCY" ∧
          ∃ j, qj = some j ∧ 10 ≤ strLen (strStrip j)))
    ∧ (∀ (db : DB) (u : UserR) (qj : Option String) (req : BreakGlassRequest)
        (ip : String) (e : HTTPError),
      (break_glass_access db u qj req ip).2 = .error e →
      (break_glass_access db u qj req ip).1 = db)
    ∧ (∀ (db : DB) (u : UserR) (qj : Option String) (req : BreakGlassRequest)
        (ip : String) (r : BreakGlassR),
      (break_glass_access db u qj req ip).2 = .ok r →
      (break_glass_access db u qj req ip).1.break_glass = db.break_glass ++ [r] ∧
        r.justification = req.justification ∧ r.user_id = u.user_id ∧
        (break_glass_access db u qj req ip).1.audit_logs = db.audit_logs ++
          [{ user_id := u.user_id, patient_id := some req.patient_id,
             action := "BREAK_GLASS_ACCESS", resource_type := "EMERGENCY_OVERRIDE",
             resource_id := toString req.patient_id, ip_address := some ip,
             user_agent := none, status := "SUCCESS", session_id := none,
             justification := some req.justification }] ∧
        break_glass_commits db u req ip =
          [break_glass_commit1 db u req ip,
           (break_glass_access db u qj req ip).1] ∧
        (break_glass_commit1 db u req ip).audit_logs = db.audit_logs) := by
  refine ⟨?_, ?_, ?_⟩
  · intro db u qj req ip
    constructor
    · rintro ⟨r, hr⟩
      unfold break_glass_access at hr
      split at hr
      · simp at hr
      · rename_i hbody
        have hb : 10 ≤ strLen req.justification := by
          by_contra hc
          exact hbody (by simp [breakGlassBodyValid, hc])
        cases hg : verify_emergency_access u qj with
        | error e => rw [hg] at hr; simp at hr
        | ok v =>
          obtain ⟨hrole, j, hqj, hj⟩ := verify_emergency_access_ok_inv hg
          exact ⟨hb, hrole, j, hqj, hj⟩
    · rintro ⟨hb, hrole, j, hqj, hj⟩
      subst hqj
      refine ⟨⟨u.user_id, req.patient_id, req.justification, req.emergency_type, some ip⟩, ?_⟩
      have hbody : ¬ breakGlassBodyValid req = false := by
        simp [breakGlassBodyValid, hb]
      rw [break_glass_access, if_neg hbody, verify_emergency_access_ok_eq hrole hj]
  · intro db u qj req ip e he
    unfold break_glass_access at he ⊢
    split at he
    · split
      · rfl
      · simp_all
    · rename_i hbody
      rw [if_neg hbody]
      cases hg : verify_emergency_access u qj with
      | error e2 => rfl
      | ok v => rw [hg] at he; simp at he
  · intro db u qj req ip r hr
    unfold break_glass_access at hr
    split at hr
    · simp at hr
    · rename_i hbody
      cases hg : verify_emergency_access u qj with
      | error e => rw [hg] at hr; simp at hr
      | ok v =>
        rw [hg] at hr
        dsimp only at hr
        have hr' : r = ⟨u.user_id, req.patient_id, req.justification,
            req.emergency_type, some ip⟩ := by
          cases hr; rfl
        subst hr'
        have hacc : (break_glass_access db u qj req ip).1 =
            break_glass_commit2 db u req ip := by
          rw [break_glass_access, if_neg hbody, hg]
        refine ⟨?_, rfl, rfl, ?_, ?_, rfl⟩
        · rw [hacc]; rfl
        · rw [hacc]; rfl
        · rw [hacc]; rfl

def exampleBGGoodReq : BreakGlassRequest :=
  { patient_id := 3, justification := "severe cardiac arrest",
    emergency_type := "CARDIAC" }

/-- Witness for C4: the three clauses applied concretely — a successful call
for an EMERGENCY user with a long justification, and a rejected call whose
query justification is too short leaving the store untouched. -/
theorem C4_break_glass_gate_and_records_witness :
    (∃ r, (break_glass_access exampleBGDB exampleBGUser (some "severe cardiac arrest")
        exampleBGGoodReq "8.8.8.8").2 = .ok r) ∧
      (break_glass_access exampleBGDB exampleBGUser (some "short")
          exampleBGGoodReq "8.8.8.8").1 = exampleBGDB ∧
      (break_glass_access exampleBGDB exampleBGUser (some "severe cardiac arrest")
          exampleBGGoodReq "8.8.8.8").1.break_glass =
        exampleBGDB.break_glass ++
          [⟨"u-e1", 3, "severe cardiac arrest", "CARDIAC", some "8.8.8.8"⟩] := by
  refine ⟨?_, ?_, ?_⟩
  · exact (C4_break_glass_gate_and_records.1 exampleBGDB exampleBGUser
      (some "severe cardiac arrest") exampleBGGoodReq "8.8.8.8").mpr
      ⟨by decide, by decide, "severe cardiac arrest", rfl, by decide⟩
  · exact C4_break_glass_gate_and_records.2.1 exampleBGDB exampleBGUser (some "short")
      exampleBGGoodReq "8.8.8.8"
      ⟨400, "Emergency access requires detailed justification (minimum 10 characters)"⟩
      (by decide)
  · exact (C4_break_glass_gate_and_records.2.2 exampleBGDB exampleBGUser
      (some "severe cardiac arrest") exampleBGGoodReq "8.8.8.8"
      ⟨"u-e1", 3, "severe cardiac arrest", "CARDIAC", some "8.8.8.8"⟩ (by decide)).1

/-! ## Session-lifecycle invariants (claims C1 and C3)

Terminal facts about a session — it has been flipped inactive, or revoked —
must survive every operation of the engine.  Each operation touches the
session table either not at all, by a per-row update that only moves a
session towards the terminal states, or (for `login`) by appending one fresh
row. -/

/-- Every stored session with this id is inactive. -/
def InactiveAt (db : DB) (sid : String) : Prop :=
  ∀ s ∈ db.sessions, s.session_id = sid → s.is_active = false

/-- Every stored session with this id is revoked. -/
def RevokedAt (db : DB) (sid : String) : Prop :=
  ∀ s ∈ db.sessions, s.session_id = sid → s.revoked = true

/-- No stored session can back this token in `get_current_user`'s filter. -/
def UnusableTok (db : DB) (tok : Token) : Prop :=
  ∀ s ∈ db.sessions,
    ¬ (s.token = tok ∧ s.user_id = tok.sub ∧ s.is_active = true ∧ s.revoked = false)

instance (db : DB) (sid : String) : Decidable (InactiveAt db sid) := by
  unfold InactiveAt
  infer_instance

instance (db : DB) (sid : String) : Decidable (RevokedAt db sid) := by
  unfold RevokedAt
  infer_instance

instance (db : DB) (tok : Token) : Decidable (UnusableTok db tok) := by
  unfold UnusableTok
  infer_instance

/-- A per-row session update that keeps the row's identity and only moves the
activity/revocation flags towards the terminal states. -/
def stepOk (f : SessionR → SessionR) : Prop :=
  ∀ s, (f s).session_id = s.session_id ∧ (f s).token = s.token ∧
    (f s).user_id = s.user_id ∧
    ((f s).is_active = true → s.is_active = true) ∧
    ((f s).revoked = false → s.revoked = false)

theorem stepOk_revokeById (sid0 : String) (now : Nat) :
    stepOk (fun s => if s.session_id = sid0 then
      { s with is_active := false, revoked := true, revoked_at := some now } else s) := by
  intro s
  by_cases h : s.session_id = sid0 <;> simp [h]

theorem stepOk_setInactiveById (sid0 : String) :
    stepOk (fun s => if s.session_id = sid0 then { s with is_active := false } else s) := by
  intro s
  by_cases h : s.session_id = sid0 <;> simp [h]

theorem stepOk_touchById (sid0 : String) (now : Nat) :
    stepOk (fun s => if s.session_id = sid0 then { s with last_activity := now } else s) := by
  intro s
  by_cases h : s.session_id = sid0 <;> simp [h]

theorem stepOk_revokeAllOf (uid : String) (now : Nat) :
    stepOk (fun s => if s.user_id = uid then
      { s with is_active := false, revoked := true, revoked_at := some now } else s) := by
  intro s
  by_cases h : s.user_id = uid <;> simp [h]

theorem inactive_map {l : List SessionR} {sid : String} {f : SessionR → SessionR}
    (hf : stepOk f) (h : ∀ s ∈ l, s.session_id = sid → s.is_active = false) :
    ∀ s' ∈ l.map f, s'.session_id = sid → s'.is_active = false := by
  intro s' hs' hid
  obtain ⟨s, hs, rfl⟩ := List.mem_map.mp hs'
  obtain ⟨h1, -, -, h4, -⟩ := hf s
  cases hcase : (f s).is_active with
  | false => rfl
  | true =>
    have hsid : s.session_id = sid := by rw [← h1]; exact hid
    have hfalse := h s hs hsid
    rw [h4 hcase] at hfalse
    cases hfalse

theorem revoked_map {l : List SessionR} {sid : String} {f : SessionR → SessionR}
    (hf : stepOk f) (h : ∀ s ∈ l, s.session_id = sid → s.revoked = true) :
    ∀ s' ∈ l.map f, s'.session_id = sid → s'.revoked = true := by
  intro s' hs' hid
  obtain ⟨s, hs, rfl⟩ := List.mem_map.mp hs'
  obtain ⟨h1, -, -, -, h5⟩ := hf s
  cases hcase : (f s).revoked with
  | true => rfl
  | false =>
    have hsid : s.session_id = sid := by rw [← h1]; exact hid
    have htrue := h s hs hsid
    rw [h5 hcase] at htrue
    cases htrue

theorem unusable_map {l : List SessionR} {tok : Token} {f : SessionR → SessionR}
    (hf : stepOk f)
    (h : ∀ s ∈ l, ¬ (s.token = tok ∧ s.user_id = tok.sub ∧ s.is_active = true ∧ s.revoked = false)) :
    ∀ s' ∈ l.map f,
      ¬ (s'.token = tok ∧ s'.user_id = tok.sub ∧ s'.is_active = true ∧ s'.revoked = false) := by
  intro s' hs' ⟨c1, c2, c3, c4⟩
  obtain ⟨s, hs, rfl⟩ := List.mem_map.mp hs'
  obtain ⟨-, h2, h3, h4, h5⟩ := hf s
  exact h s hs ⟨h2 ▸ c1, h3 ▸ c2, h4 c3, h5 c4⟩

/-- The session a successful `login` appends, as a function of its inputs. -/
def opNewSession (op : Op) (sess : SessionR) : Prop :=
  match op with
  | .opLogin _ _ _ _ sid now =>
      sess.session_id = sid ∧ sess.token.exp = now + ACCESS_TOKEN_EXPIRE_MINUTES * 60 ∧
        sess.token.ttype = "access"
  | _ => False

theorem login_sessions_shape (db : DB) (username password ip agent sid : String) (now : Nat) :
    ((login db username password ip agent sid now).1).sessions = db.sessions ∨
    ∃ sess : SessionR, ((login db username password ip agent sid now).1).sessions =
        db.sessions ++ [sess] ∧ sess.is_active = true ∧ sess.revoked = false ∧
        sess.session_id = sid ∧ sess.token.exp = now + ACCESS_TOKEN_EXPIRE_MINUTES * 60 ∧
        sess.token.ttype = "access" := by
  unfold login
  cases hf : db.users.find? (fun u => decide (u.username = username)) with
  | none => left; rfl
  | some user =>
    dsimp only
    split
    · left; rfl
    · split
      · left; rfl
      · split
        · left; rfl
        · right; exact ⟨_, rfl, rfl, rfl, rfl, rfl, rfl⟩

theorem break_glass_sessions_eq (db : DB) (u : UserR) (qj : Option String)
    (req : BreakGlassRequest) (ip : String) :
    ((break_glass_access db u qj req ip).1).sessions = db.sessions := by
  unfold break_glass_access
  split
  · rfl
  · cases verify_emergency_access u qj <;> rfl

theorem get_current_user_db_shape (db : DB) (tok : Token) (now : Nat) :
    (get_current_user db tok now).1 = db ∨
    (∃ sid0, (get_current_user db tok now).1 =
      { db with sessions := setInactiveById db.sessions sid0 }) ∨
    (∃ sid0, (get_current_user db tok now).1 =
      { db with sessions := touchById db.sessions sid0 now }) := by
  unfold get_current_user
  split
  · left; rfl
  · cases db.users.find? (fun u => decide (u.user_id = tok.sub)) with
    | none => left; rfl
    | some user =>
      dsimp only
      split
      · left; rfl
      · split
        · left; rfl
        · cases hs : db.sessions.find? (sessionMatches tok) with
          | none => left; rfl
          | some s =>
            dsimp only
            split
            · right; left; exact ⟨s.session_id, rfl⟩
            · split
              · right; left; exact ⟨s.session_id, rfl⟩
              · right; right; exact ⟨s.session_id, rfl⟩

/-- Every operation leaves the session table unchanged, rewrites it row-wise
through a `stepOk` update, or (successful `login`) appends one fresh active
row described by `opNewSession`. -/
theorem applyOp_sessions_shape (db : DB) (op : Op) :
    (applyOp db op).sessions = db.sessions
    ∨ (∃ f, stepOk f ∧ (applyOp db op).sessions = db.sessions.map f)
    ∨ (∃ sess, (applyOp db op).sessions = db.sessions ++ [sess] ∧
        sess.is_active = true ∧ sess.revoked = false ∧ opNewSession op sess) := by
  cases op with
  | opLogin username password ip agent sid now =>
    rcases login_sessions_shape db username password ip agent sid now with hL | ⟨sess, heq, h1, h2, h3, h4, h5⟩
    · left; exact hL
    · right; right; exact ⟨sess, heq, h1, h2, h3, h4, h5⟩
  | opLogout userId tok ip now =>
    dsimp only [applyOp]
    unfold logout
    cases hfind : db.sessions.find? (fun s => decide (s.token = tok ∧ s.user_id = userId)) with
    | none => left; rfl
    | some s0 =>
      right; left
      exact ⟨_, stepOk_revokeById s0.session_id now, rfl⟩
  | opRevoke sessionId userId now =>
    dsimp only [applyOp]
    unfold revoke_session
    cases hfind : db.sessions.find?
        (fun s => decide (s.session_id = sessionId ∧ s.user_id = userId)) with
    | none => left; rfl
    | some s0 =>
      right; left
      exact ⟨_, stepOk_revokeById s0.session_id now, rfl⟩
  | opChangePassword userId oldPassword newPassword now =>
    dsimp only [applyOp]
    unfold change_password
    cases hfind : db.users.find? (fun u => decide (u.user_id = userId)) with
    | none => left; rfl
    | some user =>
      dsimp only
      split
      · left; rfl
      · right; left
        exact ⟨_, stepOk_revokeAllOf userId now, rfl⟩
  | opAuthenticate tok now =>
    rcases get_current_user_db_shape db tok now with hE | ⟨sid0, hE⟩ | ⟨sid0, hE⟩
    · left; dsimp only [applyOp]; rw [hE]
    · right; left
      refine ⟨_, stepOk_setInactiveById sid0, ?_⟩
      dsimp only [applyOp]
      rw [hE]
      rfl
    · right; left
      refine ⟨_, stepOk_touchById sid0 now, ?_⟩
      dsimp only [applyOp]
      rw [hE]
      rfl
  | opRefresh tok now => left; rfl
  | opBreakGlass u qj req ip =>
    left
    exact break_glass_sessions_eq db u qj req ip

theorem inactiveAt_applyOp {db : DB} {op : Op} {sid : String}
    (hfresh : opFreshSid sid op) (h : InactiveAt db sid) :
    InactiveAt (applyOp db op) sid := by
  rcases applyOp_sessions_shape db op with hE | ⟨f, hf, hE⟩ | ⟨sess, hE, hact, -, hnew⟩
  · intro s' hs' hid
    rw [hE] at hs'
    exact h s' hs' hid
  · intro s' hs' hid
    rw [hE] at hs'
    exact inactive_map hf h s' hs' hid
  · intro s' hs' hid
    rw [hE] at hs'
    rcases List.mem_append.mp hs' with hin | hone
    · exact h s' hin hid
    · have hsess : s' = sess := by simpa using hone
      subst hsess
      cases op with
      | opLogin username password ip agent sid' now =>
        obtain ⟨hid', -, -⟩ := hnew
        rw [hid'] at hid
        exact absurd hid hfresh
      | opLogout _ _ _ _ => cases hnew
      | opRevoke _ _ _ => cases hnew
      | opChangePassword _ _ _ _ => cases hnew
      | opAuthenticate _ _ => cases hnew
      | opRefresh _ _ => cases hnew
      | opBreakGlass _ _ _ _ => cases hnew

theorem revokedAt_applyOp {db : DB} {op : Op} {sid : String}
    (hfresh : opFreshSid sid op) (h : RevokedAt db sid) :
    RevokedAt (applyOp db op) sid := by
  rcases applyOp_sessions_shape db op with hE | ⟨f, hf, hE⟩ | ⟨sess, hE, -, hrev, hnew⟩
  · intro s' hs' hid
    rw [hE] at hs'
    exact h s' hs' hid
  · intro s' hs' hid
    rw [hE] at hs'
    exact revoked_map hf h s' hs' hid
  · intro s' hs' hid
    rw [hE] at hs'
    rcases List.mem_append.mp hs' with hin | hone
    · exact h s' hin hid
    · have hsess : s' = sess := by simpa using hone
      subst hsess
      cases op with
      | opLogin username password ip agent sid' now =>
        obtain ⟨hid', -, -⟩ := hnew
        rw [hid'] at hid
        exact absurd hid hfresh
      | opLogout _ _ _ _ => cases hnew
      | opRevoke _ _ _ => cases hnew
      | opChangePassword _ _ _ _ => cases hnew
      | opAuthenticate _ _ => cases hnew
      | opRefresh _ _ => cases hnew
      | opBreakGlass _ _ _ _ => cases hnew

theorem unusableTok_applyOp {db : DB} {op : Op} {tok : Token}
    (hfresh : opFreshTok tok op) (h : UnusableTok db tok) :
    UnusableTok (applyOp db op) tok := by
  rcases applyOp_sessions_shape db op with hE | ⟨f, hf, hE⟩ | ⟨sess, hE, -, -, hnew⟩
  · intro s' hs'
    rw [hE] at hs'
    exact h s' hs'
  · intro s' hs'
    rw [hE] at hs'
    exact unusable_map hf h s' hs'
  · intro s' hs' hc
    rw [hE] at hs'
    rcases List.mem_append.mp hs' with hin | hone
    · exact h s' hin hc
    · have hsess : s' = sess := by simpa using hone
      subst hsess
      cases op with
      | opLogin username password ip agent sid' now =>
        obtain ⟨-, hexp, -⟩ := hnew
        obtain ⟨c1, -, -, -⟩ := hc
        rw [c1] at hexp
        exact absurd hexp hfresh
      | opLogout _ _ _ _ => cases hnew
      | opRevoke _ _ _ => cases hnew
      | opChangePassword _ _ _ _ => cases hnew
      | opAuthenticate _ _ => cases hnew
      | opRefresh _ _ => cases hnew
      | opBreakGlass _ _ _ _ => cases hnew

theorem unusableTok_applyTrace {db : DB} {tok : Token} {trace : List Op}
    (hfresh : ∀ op ∈ trace, opFreshTok tok op) (h : UnusableTok db tok) :
    UnusableTok (applyTrace db trace) tok := by
  induction trace generalizing db with
  | nil => exact h
  | cons op rest ih =>
    exact ih (fun o ho => hfresh o (List.mem_cons_of_mem op ho))
      (unusableTok_applyOp (hfresh op (List.mem_cons_self op rest)) h)

theorem unusable_auth_fails {db : DB} {tok : Token} (now : Nat)
    (h : UnusableTok db tok) :
    ∃ e, (get_current_user db tok now).2 = .error e := by
  apply except_error_of_not_ok
  intro a hc
  obtain ⟨-, s, hmem, h1, h2, h3, h4, -, -⟩ := get_current_user_ok_inv hc
  exact h s hmem ⟨h1, h2, h3, h4⟩

/-! ## Claim C1 — session usability window and terminal flips -/

def exampleC1User : UserR :=
  { user_id := "u-c1", username := "gina", email := "gina@x.com",
    hashed_password := hash_password "Gina1!!!", full_name := "Gina",
    role := "DOCTOR", is_active := true, failed_login_attempts := 0,
    locked_until := none, last_login := none, password_changed_date := none }

def exampleC1Tok : Token :=
  { sub := "u-c1", role := some "DOCTOR", ttype := "access", exp := 999999 }

def exampleC1Session : SessionR :=
  { session_id := "s-c1", user_id := "u-c1", token := exampleC1Tok,
    refresh_token := create_refresh_token "u-c1" 0, ip_address := none,
    user_agent := none, expires_at := 3600, last_activity := 1800,
    is_active := true, revoked := false, revoked_at := none }

def exampleC1DB : DB :=
  { users := [exampleC1User], sessions := [exampleC1Session], audit_logs := [],
    security_events := [], break_glass := [] }

/-- Claim C1 (counterexample): at `now = expires_at` — where additionally
`now − last_activity` equals the idle timeout exactly — `get_current_user`
still accepts the session, because the code tests `expires_at < now` and
`now − last_activity > timeout` strictly; this refutes the claim's strict
bounds "now < expires_at" and "(now − last_activity) < the 30-minute idle
timeout" as necessary conditions for acceptance. -/
theorem C1_accepts_at_boundary :
    (get_current_user exampleC1DB exampleC1Tok 3600).2 = .ok exampleC1User ∧
      exampleC1Session.is_active = true ∧ exampleC1Session.revoked = false ∧
      ¬ (3600 < exampleC1Session.expires_at) ∧
      ¬ (3600 - exampleC1Session.last_activity < SESSION_TIMEOUT_MINUTES * 60) := by
  decide

/-- Claim C1 (amended): `get_current_user` accepts a session only while
`is_active = true`, `revoked = false`, `now ≤ expires_at` and
`now − last_activity ≤ 30` minutes (the two time comparisons are non-strict
on the acceptance side); a rejection because absolute expiry has passed, or
because the idle timeout is exceeded, commits `is_active := false` on that
session even though the call fails; and no operation of the engine ever
reactivates an inactive session (given the freshly generated session id of a
later login does not collide). -/
theorem C1_session_usability :
    (∀ (db : DB) (tok : Token) (now : Nat) (u : UserR),
      (get_current_user db tok now).2 = .ok u →
      ∃ s ∈ db.sessions, s.token = tok ∧ s.user_id = tok.sub ∧ s.is_active = true ∧
        s.revoked = false ∧ now ≤ s.expires_at ∧
        now - s.last_activity ≤ SESSION_TIMEOUT_MINUTES * 60)
    ∧ (∀ (db : DB) (tok : Token) (now : Nat) (user : UserR) (s : SessionR),
      verify_token_ok tok now = true →
      db.users.find? (fun u => decide (u.user_id = tok.sub)) = some user →
      user.is_active = true → lockedNow user now = false →
      db.sessions.find? (sessionMatches tok) = some s →
      s.expires_at < now →
      get_current_user db tok now =
        ({ db with sessions := setInactiveById db.sessions s.session_id },
         .error ⟨401, "Session has expired"⟩))
    ∧ (∀ (db : DB) (tok : Token) (now : Nat) (user : UserR) (s : SessionR),
      verify_token_ok tok now = true →
      db.users.find? (fun u => decide (u.user_id = tok.sub)) = some user →
      user.is_active = true → lockedNow user now = false →
      db.sessions.find? (sessionMatches tok) = some s →
      ¬ s.expires_at < now →
      is_session_expired s.last_activity now = true →
      get_current_user db tok now =
        ({ db with sessions := setInactiveById db.sessions s.session_id },
         .error ⟨401, "Session timeout due to inactivity"⟩))
    ∧ (∀ (db : DB) (op : Op) (sid : String),
      opFreshSid sid op → InactiveAt db sid → InactiveAt (applyOp db op) sid) := by
  refine ⟨?_, ?_, ?_, ?_⟩
  · intro db tok now u h
    exact (get_current_user_ok_inv h).2
  · intro db tok now user s hv hf hact hlk hs hex
    simp [get_current_user, hv, hf, hact, hlk, hs, hex]
  · intro db tok now user s hv hf hact hlk hs hnx hidle
    simp [get_current_user, hv, hf, hact, hlk, hs, hnx, hidle]
  · intro db op sid hfresh h
    exact inactiveAt_applyOp hfresh h

def exampleC1IdleSession : SessionR :=
  { exampleC1Session with expires_at := 100000, last_activity := 0 }

def exampleC1IdleDB : DB :=
  { exampleC1DB with sessions := [exampleC1IdleSession] }

def exampleC1InactiveDB : DB :=
  { exampleC1DB with sessions := [{ exampleC1Session with is_active := false }] }

/-- Witness for C1: the four clauses applied concretely — acceptance at the
boundary yielding the session facts, the committed inactive flip on an
expired and on an idle-timed-out session, and preservation of inactivity
across a revocation call. -/
theorem C1_session_usability_witness :
    (∃ s ∈ exampleC1DB.sessions, s.token = exampleC1Tok ∧
        s.user_id = exampleC1Tok.sub ∧ s.is_active = true ∧ s.revoked = false ∧
        3600 ≤ s.expires_at ∧
        3600 - s.last_activity ≤ SESSION_TIMEOUT_MINUTES * 60) ∧
      get_current_user exampleC1DB exampleC1Tok 4000 =
        ({ exampleC1DB with
            sessions := setInactiveById exampleC1DB.sessions "s-c1" },
         .error ⟨401, "Session has expired"⟩) ∧
      get_current_user exampleC1IdleDB exampleC1Tok 4000 =
        ({ exampleC1IdleDB with
            sessions := setInactiveById exampleC1IdleDB.sessions "s-c1" },
         .error ⟨401, "Session timeout due to inactivity"⟩) ∧
      InactiveAt (applyOp exampleC1InactiveDB (.opRevoke "s-x" "u-c1" 7)) "s-c1" := by
  refine ⟨?_, ?_, ?_, ?_⟩
  · exact C1_session_usability.1 exampleC1DB exampleC1Tok 3600 exampleC1User (by decide)
  · exact C1_session_usability.2.1 exampleC1DB exampleC1Tok 4000 exampleC1User
      exampleC1Session (by decide) (by decide) (by decide) (by decide) (by decide)
      (by decide)
  · exact C1_session_usability.2.2.1 exampleC1IdleDB exampleC1Tok 4000 exampleC1User
      exampleC1IdleSession (by decide) (by decide) (by decide) (by decide) (by decide)
      (by decide) (by decide)
  · exact C1_session_usability.2.2.2 exampleC1InactiveDB (.opRevoke "s-x" "u-c1" 7)
      "s-c1" (by decide) (by decide)

/-! ## Claim C3 — revocation is terminal across the whole engine -/

/-- Claim C3: a session revoked by logout, by the explicit session-revocation
endpoint, or by a password change (which revokes **all** sessions of the
user) leaves the store with no usable session for that token; that state is
preserved by every operation of the engine (for later logins, provided the
freshly minted access token differs, which holds whenever the expiry claims
differ); along any such operation sequence a subsequent `get_current_user`
with the token fails — with exactly the 401 "Session not found or expired"
error when the token still verifies and the user is active and unlocked, the
cryptographic validity of the token notwithstanding; and no operation ever
clears a session's revoked flag. -/
theorem C3_revocation_terminal :
    (∀ (db : DB) (userId ip : String) (tok : Token) (now : Nat) (s0 : SessionR),
      db.sessions.find? (fun s => decide (s.token = tok ∧ s.user_id = userId)) = some s0 →
      userId = tok.sub →
      (∀ s ∈ db.sessions, s.token = tok → s.user_id = tok.sub →
        s.session_id = s0.session_id) →
      UnusableTok (logout db userId tok ip now) tok)
    ∧ (∀ (db : DB) (sessionId userId : String) (now : Nat) (db' : DB) (msg : String)
        (tok : Token),
      revoke_session db sessionId userId now = (db', .ok msg) →
      (∀ s ∈ db.sessions, s.token = tok → s.user_id = tok.sub →
        s.session_id = sessionId) →
      UnusableTok db' tok)
    ∧ (∀ (db : DB) (userId oldPassword newPassword : String) (now : Nat) (db' : DB)
        (msg : String),
      change_password db userId oldPassword newPassword now = (db', .ok msg) →
      ∀ tok : Token, tok.sub = userId → UnusableTok db' tok)
    ∧ (∀ (db : DB) (op : Op) (tok : Token),
      opFreshTok tok op → UnusableTok db tok → UnusableTok (applyOp db op) tok)
    ∧ (∀ (db : DB) (tok : Token) (trace : List Op) (now : Nat),
      UnusableTok db tok → (∀ op ∈ trace, opFreshTok tok op) →
      ∃ e, (get_current_user (applyTrace db trace) tok now).2 = .error e)
    ∧ (∀ (db : DB) (tok : Token) (now : Nat) (user : UserR),
      verify_token_ok tok now = true →
      db.users.find? (fun u => decide (u.user_id = tok.sub)) = some user →
      user.is_active = true → lockedNow user now = false →
      UnusableTok db tok →
      get_current_user db tok now = (db, .error ⟨401, "Session not found or expired"⟩))
    ∧ (∀ (db : DB) (op : Op) (sid : String),
      opFreshSid sid op → RevokedAt db sid → RevokedAt (applyOp db op) sid) := by
  refine ⟨?_, ?_, ?_, ?_, ?_, ?_, ?_⟩
  · intro db userId ip tok now s0 hfind hsub huniq
    unfold logout
    rw [hfind]
    dsimp only
    intro s' hs' hc
    dsimp only at hs'
    unfold revokeById at hs'
    obtain ⟨s, hs, rfl⟩ := List.mem_map.mp hs'
    obtain ⟨c1, c2, c3, c4⟩ := hc
    by_cases hsid : s.session_id = s0.session_id
    · rw [if_pos hsid] at c4
      simp at c4
    · rw [if_neg hsid] at c1 c2
      exact hsid (huniq s hs c1 c2)
  · intro db sessionId userId now db' msg tok hrev huniq
    unfold revoke_session at hrev
    cases hfind : db.sessions.find?
        (fun s => decide (s.session_id = sessionId ∧ s.user_id = userId)) with
    | none => rw [hfind] at hrev; simp at hrev
    | some s0 =>
      rw [hfind] at hrev
      dsimp only at hrev
      have hdb := congrArg Prod.fst hrev
      dsimp only at hdb
      have hkey' := List.find?_some hfind
      have hkey : s0.session_id = sessionId := (of_decide_eq_true hkey').1
      rw [← hdb]
      intro s' hs' hc
      dsimp only at hs'
      unfold revokeById at hs'
      obtain ⟨s, hs, rfl⟩ := List.mem_map.mp hs'
      obtain ⟨c1, c2, c3, c4⟩ := hc
      by_cases hsid : s.session_id = s0.session_id
      · rw [if_pos hsid] at c4
        simp at c4
      · rw [if_neg hsid] at c1 c2
        exact hsid (hkey ▸ huniq s hs c1 c2)
  · intro db userId oldPassword newPassword now db' msg hch tok htok
    unfold change_password at hch
    cases hfind : db.users.find? (fun u => decide (u.user_id = userId)) with
    | none => rw [hfind] at hch; simp at hch
    | some user =>
      rw [hfind] at hch
      dsimp only at hch
      split at hch
      · simp at hch
      · have hdb := congrArg Prod.fst hch
        dsimp only at hdb
        rw [← hdb]
        intro s' hs' hc
        dsimp only at hs'
        unfold revokeAllOf at hs'
        obtain ⟨s, hs, rfl⟩ := List.mem_map.mp hs'
        obtain ⟨c1, c2, c3, c4⟩ := hc
        by_cases hu : s.user_id = userId
        · rw [if_pos hu] at c4
          simp at c4
        · rw [if_neg hu] at c2
          rw [htok] at c2
          exact hu c2
  · intro db op tok hfresh h
    exact unusableTok_applyOp hfresh h
  · intro db tok trace now h hfresh
    exact unusable_auth_fails now (unusableTok_applyTrace hfresh h)
  · intro db tok now user hv hf hact hlk h
    have hnone : db.sessions.find? (sessionMatches tok) = none := by
      rw [List.find?_eq_none]
      intro s hs hp
      unfold sessionMatches at hp
      exact h s hs (of_decide_eq_true hp)
    simp [get_current_user, hv, hf, hact, hlk, hnone]
  · intro db op sid hfresh h
    exact revokedAt_applyOp hfresh h

def exampleC3RevokedDB : DB :=
  { exampleC1DB with
    sessions := [{ exampleC1Session with
      is_active := false, revoked := true, revoked_at := some 10 }] }

/-- Witness for C3: over the concrete store holding `gina`'s session, each
clause applied — logout, the revocation endpoint and a password change leave
the token without a usable session; the unusable state survives a refresh
step; the subsequent authenticate call along that trace fails, and with the
exact 401 session-not-found error; and a later login under a fresh session id
preserves the revoked flag. -/
theorem C3_revocation_terminal_witness :
    UnusableTok (logout exampleC1DB "u-c1" exampleC1Tok "ip" 10) exampleC1Tok ∧
      UnusableTok (revoke_session exampleC1DB "s-c1" "u-c1" 10).1 exampleC1Tok ∧
      UnusableTok (change_password exampleC1DB "u-c1" "Gina1!!!" "NewPw1!!" 10).1
        exampleC1Tok ∧
      UnusableTok (applyOp exampleC3RevokedDB (.opRefresh exampleC1Tok 3)) exampleC1Tok ∧
      (∃ e, (get_current_user
          (applyTrace exampleC3RevokedDB [.opRefresh exampleC1Tok 3])
          exampleC1Tok 20).2 = .error e) ∧
      get_current_user exampleC3RevokedDB exampleC1Tok 20 =
        (exampleC3RevokedDB, .error ⟨401, "Session not found or expired"⟩) ∧
      RevokedAt (applyOp exampleC3RevokedDB (.opLogin "x" "y" "ip" "ag" "s-new" 77))
        "s-c1" := by
  refine ⟨?_, ?_, ?_, ?_, ?_, ?_, ?_⟩
  · exact C3_revocation_terminal.1 exampleC1DB "u-c1" "ip" exampleC1Tok 10
      exampleC1Session (by decide) (by decide) (by decide)
  · exact C3_revocation_terminal.2.1 exampleC1DB "s-c1" "u-c1" 10
      (revoke_session exampleC1DB "s-c1" "u-c1" 10).1 "Session revoked successfully"
      exampleC1Tok (by decide) (by decide)
  · exact C3_revocation_terminal.2.2.1 exampleC1DB "u-c1" "Gina1!!!" "NewPw1!!" 10
      (change_password exampleC1DB "u-c1" "Gina1!!!" "NewPw1!!" 10).1
      "Password changed successfully. Please login again." (by decide) exampleC1Tok
      (by decide)
  · exact C3_revocation_terminal.2.2.2.1 exampleC3RevokedDB (.opRefresh exampleC1Tok 3)
      exampleC1Tok (by decide) (by decide)
  · exact C3_revocation_terminal.2.2.2.2.1 exampleC3RevokedDB exampleC1Tok
      [.opRefresh exampleC1Tok 3] 20 (by decide) (by decide)
  · exact C3_revocation_terminal.2.2.2.2.2.1 exampleC3RevokedDB exampleC1Tok 20
      exampleC1User (by decide) (by decide) (by decide) (by decide) (by decide)
  · exact C3_revocation_terminal.2.2.2.2.2.2 exampleC3RevokedDB
      (.opLogin "x" "y" "ip" "ag" "s-new" 77) "s-c1" (by decide) (by decide)

end HIS
